import Mathlib

/-! Bridge prototype (`cmd/bridged/bridge.go`)

A shallow embedding of the `ethBridge` operations and the properties proved
about them.

Conventions of the embedding:

* a Go `*big.Int` is an `Option Int` (`none` is the nil pointer);
* a Go `error` is an `Option Error` (`none` is the nil error), an `Error`
  being its message;
* a Go `(value, error)` query of the Ethereum client that yields a non-nil
  value exactly when the error is nil is an `Except Error value`;
* the calls an operation makes on its collaborators (contract binding, signer
  closure, keystore, client submission) are returned as a trace `List Call`,
  in the order in which they are made;
* the 30 second `context.WithTimeout` deadlines and the `sync.RWMutex` are not
  represented: the embedding is sequential and untimed.
-/

namespace Bridge

/-- Message of a Go `error` value. -/
abbrev Error := String

/-- Stand-in for `common.Address`, a 20 byte array read as a number. -/
abbrev Address := Nat

/-- RinkebyNetworkID is the network ID for the rinkeby network. -/
def RinkebyNetworkID : Int := 4

/-- Stand-in for `types.Header`: the fields the bridge reads. `Number` is a
`*big.Int` in the source. -/
structure Header where
  Number : Option Int
  Hash : Nat
deriving DecidableEq, Repr

/-- Stand-in for `types.Transaction`: its encoded bytes; the bridge never looks inside. -/
structure Transaction where
  raw : List Int
deriving DecidableEq, Repr

/-- Stand-in for `accounts.Account`. -/
structure Account where
  Address : Address
  URL : String
deriving DecidableEq, Repr

/-- Stand-in for `types.Signer`, the signing scheme handed to a `bind.SignerFn`. -/
inductive Signer where
  | HomesteadSigner
  | EIP155Signer (chainID : Int)
deriving DecidableEq, Repr

/-- Stand-in for `params.ChainConfig`: the chain identifier it carries. -/
structure ChainConfig where
  ChainID : Option Int
deriving DecidableEq, Repr

/-- One observable call made on a collaborator of the bridge. -/
inductive Call where
  /-- The call `NewTTFT20Transactor(contractAddress, op.client)`. -/
  | NewTTFT20Transactor (contractAddress : Address)
  /-- The call `tr.Transfer(opts, recipient, amount)`, with `opts.From` as sender. -/
  | Transfer (sender : Address) (recipient : Address) (amount : Int)
  /-- The call `tr.MintTokens(opts, receiver, amount, txID)`, with `opts.From` as sender. -/
  | MintTokens (sender : Address) (receiver : Address) (amount : Int) (txID : String)
  /-- An invocation of `opts.Signer` by the contract binding. -/
  | SignerFn (signer : Signer) (address : Address) (tx : Transaction)
  /-- The call `op.keystore.SignTx(account, tx, chainID)`. -/
  | SignTx (account : Account) (tx : Transaction) (chainID : Int)
  /-- The call `client.SendTransaction(ctx, tx)`, the submission to the chain. -/
  | SendTransaction (tx : Transaction)
deriving DecidableEq, Repr

/-- The calls that hand a state-changing request to the contract binding. -/
def Call.isTransact : Call → Bool
  | .Transfer _ _ _ => true
  | .MintTokens _ _ _ _ => true
  | _ => false

/-- Result of a signing request: Go's `(*types.Transaction, error)`. -/
abbrev SignResult := Option Transaction × Option Error

/-- Stand-in for `bind.SignerFn`: the answer together with the calls the closure made. -/
abbrev SignerFn := Signer → Address → Transaction → SignResult × List Call

/-- Stand-in for `bind.TransactOpts` (the `Context` deadline is not represented). -/
structure TransactOpts where
  From : Address
  Signer : SignerFn
  Value : Option Int
  Nonce : Option Int
  GasLimit : Nat
  GasPrice : Option Int

/-- Behaviour of one bound-contract call (`tr.Transfer`, `tr.MintTokens`) towards
the capabilities it was given. The binding lives outside `bridge.go`, so it is a
parameter: any finite strategy that finishes with a result, asks the signer of
its `TransactOpts` to sign and goes on with the answer, or submits a transaction
through the client and goes on with the outcome. -/
inductive BoundCall where
  | done (tx : Option Transaction) (err : Option Error)
  | sign (signer : Signer) (address : Address) (tx : Transaction) (next : SignResult → BoundCall)
  | send (tx : Transaction) (next : Option Error → BoundCall)

/-- Stand-in for the generated `TTFT20Transactor`: its two state-changing methods. -/
structure TTFT20Transactor where
  Transfer : TransactOpts → Address → Int → BoundCall
  MintTokens : TransactOpts → Address → Int → String → BoundCall

/-- Stand-in for `ethclient.Client`: the queries of the chain the bridge can make.
`NonceAt` is part of the client although `bridge.go` never calls it. -/
structure Client where
  HeaderByNumber : Option Int → Except Error Header
  SuggestGasPrice : Except Error Int
  BalanceAt : Address → Option Int → Except Error Int
  NonceAt : Address → Option Int → Except Error Nat
  SendTransaction : Transaction → Option Error

/-- Stand-in for `keystore.KeyStore`. -/
structure KeyStore where
  Accounts : List Account
  SignTx : Account → Transaction → Int → SignResult

/-- Type of the generated constructor `NewTTFT20Transactor(address, backend)`, which
is not part of `bridge.go` and is taken as a parameter by the operations using it. -/
abbrev TransactorBinding := Address → Client → Except Error TTFT20Transactor

/-- The `ethBridge` struct: a prototype for a bridge between tft and erc20. The
`stack` and `lock` fields are not represented. -/
structure ethBridge where
  config : ChainConfig
  client : Client
  keystore : KeyStore
  account : Account
  head : Option Header
  balance : Option Int
  nonce : Nat
  price : Option Int

/-- Runs a bound-contract call: signing requests go to `opts.Signer`, submissions
to `client.SendTransaction`; every request is recorded in the trace. -/
def BoundCall.run (client : Client) (opts : TransactOpts) : BoundCall → SignResult × List Call
  | .done tx err => ((tx, err), [])
  | .sign signer address tx next =>
    let answer := opts.Signer signer address tx
    let rest := BoundCall.run client opts (next answer.1)
    (rest.1, Call.SignerFn signer address tx :: (answer.2 ++ rest.2))
  | .send tx next =>
    let rest := BoundCall.run client opts (next (client.SendTransaction tx))
    (rest.1, Call.SendTransaction tx :: rest.2)

/-- The method `refresh`: retrieves the latest header from the chain and the
associated bridge balance and gas price, and updates the cached stats. Returns the
error and the bridge after the call. The local `nonce` is declared and never
assigned in the source, so it holds the zero value when it is stored. -/
def ethBridge.refresh (op : ethBridge) (head : Option Header) : Option Error × ethBridge :=
  let resolved : Except Error Header :=
    match head with
    | none => op.client.HeaderByNumber none
    | some h => .ok h
  match resolved with
  | .error err => (some err, op)
  | .ok head =>
    let nonce : Nat := 0
    match op.client.SuggestGasPrice with
    | .error err => (some err, op)
    | .ok price =>
      match op.client.BalanceAt op.account.Address head.Number with
      | .error err => (some err, op)
      | .ok balance =>
        (none, { op with head := some head, balance := some balance, price := some price, nonce := nonce })

/-- The method `GetSignerFunc`: the closure refuses any address other than the
bridge account and otherwise signs through the keystore with the Rinkeby chain id. -/
def ethBridge.GetSignerFunc (op : ethBridge) : SignerFn :=
  fun _signer address tx =>
    if address ≠ op.account.Address then
      ((none, some "not authorized to sign this account"), [])
    else
      (op.keystore.SignTx op.account tx RinkebyNetworkID, [Call.SignTx op.account tx RinkebyNetworkID])

/-- The `bind.TransactOpts` literal built by `TransferFunds` and `Mint`. -/
def ethBridge.transactOpts (op : ethBridge) : TransactOpts :=
  { From := op.account.Address, Signer := op.GetSignerFunc, Value := none, Nonce := none,
    GasLimit := 0, GasPrice := none }

/-- The method `TransferFunds`: returns the error and the trace of calls made. -/
def ethBridge.TransferFunds (NewTTFT20Transactor : TransactorBinding) (op : ethBridge)
    (contractAddress : Address) (recipient : Address) (amount : Option Int) :
    Option Error × List Call :=
  match amount with
  | none => (some "invalid amount", [])
  | some amount =>
    match NewTTFT20Transactor contractAddress op.client with
    | .error err => (some err, [Call.NewTTFT20Transactor contractAddress])
    | .ok tr =>
      let opts := op.transactOpts
      let res := BoundCall.run op.client opts (tr.Transfer opts recipient amount)
      (res.1.2, Call.NewTTFT20Transactor contractAddress ::
        Call.Transfer opts.From recipient amount :: res.2)

/-- The method `Mint`: returns the error and the trace of calls made. -/
def ethBridge.Mint (NewTTFT20Transactor : TransactorBinding) (op : ethBridge)
    (contractAddress : Address) (receiver : Address) (amount : Option Int) (txID : String) :
    Option Error × List Call :=
  match amount with
  | none => (some "invalid amount", [])
  | some amount =>
    match NewTTFT20Transactor contractAddress op.client with
    | .error err => (some err, [Call.NewTTFT20Transactor contractAddress])
    | .ok tr =>
      let opts := op.transactOpts
      let res := BoundCall.run op.client opts (tr.MintTokens opts receiver amount txID)
      (res.1.2, Call.NewTTFT20Transactor contractAddress ::
        Call.MintTokens opts.From receiver amount txID :: res.2)

/-! ## Concrete collaborators used to exercise the operations -/

/-- A client whose queries all succeed: best header number 12, gas price 3,
balance 50, account nonce 7, and submissions that are accepted. -/
def okClient : Client where
  HeaderByNumber := fun _ => .ok { Number := some 12, Hash := 120 }
  SuggestGasPrice := .ok 3
  BalanceAt := fun _ _ => .ok 50
  NonceAt := fun _ _ => .ok 7
  SendTransaction := fun _ => none

/-- A client whose balance query fails while the others succeed. -/
def noBalanceClient : Client :=
  { okClient with BalanceAt := fun _ _ => .error "balance unavailable" }

/-- A client that refuses every submission. -/
def rejectingClient : Client :=
  { okClient with SendTransaction := fun _ => some "transaction rejected" }

/-- A keystore with two accounts that signs by prefixing the chain id to the payload. -/
def demoKeyStore : KeyStore where
  Accounts := [{ Address := 1, URL := "keystore://first" }, { Address := 2, URL := "keystore://second" }]
  SignTx := fun _ tx chainID => (some { raw := chainID :: tx.raw }, none)

/-- A binding behaving like a bound contract: it builds the raw transaction, asks
the signer of its options to sign for `opts.From`, submits the signed transaction
and reports the first failure. -/
def demoCall (opts : TransactOpts) (rawTx : Transaction) : BoundCall :=
  .sign .HomesteadSigner opts.From rawTx fun answer =>
    match answer with
    | (_, some err) => .done none (some err)
    | (none, none) => .done none (some "no signed transaction")
    | (some signedTx, none) =>
      .send signedTx fun outcome =>
        match outcome with
        | some err => .done none (some err)
        | none => .done (some signedTx) none

/-- The transactor of the demonstration binding. -/
def demoTransactor : TTFT20Transactor where
  Transfer := fun opts recipient amount => demoCall opts { raw := [recipient, amount] }
  MintTokens := fun opts receiver amount txID => demoCall opts { raw := [receiver, amount, txID.length] }

/-- A binding constructor that always succeeds with `demoTransactor`. -/
def demoBinding : TransactorBinding := fun _ _ => .ok demoTransactor

/-- A bridge over `okClient` for account 1 whose cache holds head 20, balance 40,
nonce 5 and price 2. -/
def demoBridge : ethBridge where
  config := { ChainID := some 4 }
  client := okClient
  keystore := demoKeyStore
  account := { Address := 1, URL := "keystore://first" }
  head := some { Number := some 20, Hash := 200 }
  balance := some 40
  nonce := 5
  price := some 2

/-- The bridge `demoBridge` over a client that refuses every submission. -/
def rejectedBridge : ethBridge := { demoBridge with client := rejectingClient }

/-- A binding constructor that always fails. -/
def failingBinding : TransactorBinding := fun _ _ => .error "no contract code at given address"

/-- The bridge `demoBridge` over a client whose balance query fails. -/
def staleBridge : ethBridge := { demoBridge with client := noBalanceClient }

/-- The bridge `demoBridge` with the cache a successful refresh from the best
header of `okClient` leaves behind. -/
def refreshedBridge : ethBridge :=
  { demoBridge with
    head := some { Number := some 12, Hash := 120 }, balance := some 50, price := some 3,
    nonce := 0 }

/-- An older header than the one cached by `demoBridge`. -/
def olderHead : Header := { Number := some 15, Hash := 150 }

/-! ## The head loop (`loop`)

The main loop blocks in `for head := range heads`; one iteration (the receive and
the non-blocking `select` that follows it) is one event. The worker goroutine is
followed through its program points: launched, blocked in `for head := range
update`, inside `refresh`, and writing its log lines after `refresh` returned; one
event moves it to the next point. The channel `update` is unbuffered, so the send of
the `select` succeeds exactly when the worker is blocked in its receive: a head
selected while the worker is launched, refreshing or still logging is dropped. -/

/-- Program point of the worker goroutine started by `loop`. -/
inductive Worker where
  /-- Launched by the `go` statement, not yet blocked in its receive. -/
  | starting
  /-- Blocked in `for head := range update`. -/
  | receiving
  /-- Inside `op.refresh(head)`. -/
  | refreshing (head : Header)
  /-- The call `op.refresh(head)` returned `err`; the worker is at its `log.Warn` and
  `log.Info` lines and not yet back in its receive. -/
  | logging (head : Header) (err : Option Error)
deriving DecidableEq, Repr

/-- What the two goroutines of `loop` can be seen doing. -/
inductive LoopObs where
  /-- The worker received `head` from `update` and entered `op.refresh(head)`. -/
  | RefreshCall (head : Header)
  /-- The call `op.refresh(head)` returned `err`. -/
  | RefreshReturn (head : Header) (err : Option Error)
  /-- The line `log.Warn("Failed to update state", "block", head.Number, "err", err)`. -/
  | WarnFailed (head : Header) (err : Error)
  /-- The line `log.Info("Internal stats updated", "block", head.Number, ...)`. -/
  | InfoUpdated (head : Header)
  /-- The `default` case of the select for `head`:
  `log.Info("Ignoring current head, update already in progress")`. -/
  | InfoIgnoring (head : Header)
deriving DecidableEq, Repr

/-- The events that drive `loop`. -/
inductive LoopEvent where
  /-- The range over `heads` yields `head` and the select of that iteration runs. -/
  | newHead (head : Header)
  /-- The worker goroutine runs from its program point to the next one. -/
  | workerStep
deriving DecidableEq, Repr

/-- State of a running `loop`: the bridge and the program point of the worker. -/
structure LoopState where
  op : ethBridge
  worker : Worker

/-- The head whose refresh is in flight, if any. -/
def Worker.inFlight : Worker → Option Header
  | .refreshing head => some head
  | _ => none

/-- One event of `loop`: the next state and what was observed. -/
def LoopState.step (s : LoopState) : LoopEvent → LoopState × List LoopObs
  | .newHead head =>
    match s.worker with
    | .receiving => ({ s with worker := .refreshing head }, [.RefreshCall head])
    | _ => (s, [.InfoIgnoring head])
  | .workerStep =>
    match s.worker with
    | .starting => ({ s with worker := .receiving }, [])
    | .receiving => (s, [])
    | .refreshing head =>
      let res := s.op.refresh (some head)
      ({ op := res.2, worker := .logging head res.1 }, [.RefreshReturn head res.1])
    | .logging head err =>
      ({ s with worker := .receiving },
        (match err with
          | some err => [LoopObs.WarnFailed head err]
          | none => []) ++ [.InfoUpdated head])

/-- A sequence of events of `loop`: the final state and the observations in order. -/
def LoopState.run (s : LoopState) : List LoopEvent → LoopState × List LoopObs
  | [] => (s, [])
  | e :: es =>
    let first := s.step e
    let rest := LoopState.run first.1 es
    (rest.1, first.2 ++ rest.2)

/-- The method `loop` under a schedule of events: the worker has just been launched
and nothing was observed yet. The method has no result; it ends only when `heads`
is closed. -/
def ethBridge.loop (op : ethBridge) (schedule : List LoopEvent) : LoopState × List LoopObs :=
  LoopState.run { op := op, worker := .starting } schedule

/-- The heads passed to `refresh`, in order. -/
def refreshArgs : List LoopObs → List Header
  | [] => []
  | .RefreshCall head :: rest => head :: refreshArgs rest
  | _ :: rest => refreshArgs rest

/-- The heads delivered to the main loop by a schedule, in order. -/
def deliveredHeads : List LoopEvent → List Header
  | [] => []
  | .newHead head :: rest => head :: deliveredHeads rest
  | .workerStep :: rest => deliveredHeads rest

/-- Scans observations knowing the refresh in flight, if any. A call of `refresh` is
accepted only when none is in flight and a return only for the one in flight; the
answer is the refresh in flight at the end, or `none` when two executions overlap. -/
def inFlightAfter : Option Header → List LoopObs → Option (Option Header)
  | cur, [] => some cur
  | none, .RefreshCall head :: rest => inFlightAfter (some head) rest
  | some _, .RefreshCall _ :: _ => none
  | some cur, .RefreshReturn head _ :: rest =>
    if cur = head then inFlightAfter none rest else none
  | none, .RefreshReturn _ _ :: _ => none
  | cur, .WarnFailed _ _ :: rest => inFlightAfter cur rest
  | cur, .InfoUpdated _ :: rest => inFlightAfter cur rest
  | cur, .InfoIgnoring _ :: rest => inFlightAfter cur rest

/-- Headers numbered 100, 101 and 102. -/
def head100 : Header := { Number := some 100, Hash := 1000 }

/-- Header number 101. -/
def head101 : Header := { Number := some 101, Hash := 1010 }

/-- Header number 102. -/
def head102 : Header := { Number := some 102, Hash := 1020 }

/-! ## The event watchers (`SubscribeTransfers`, `SubscribeMint`) -/

/-- Stand-in for the generated `TTFT20Transfer` event. -/
structure TTFT20Transfer where
  From : Address
  To : Address
  Tokens : Option Int
deriving DecidableEq, Repr

/-- Stand-in for the generated `TTFT20Mint` event. -/
structure TTFT20Mint where
  Receiver : Address
  Tokens : Option Int
  Txid : String
deriving DecidableEq, Repr

/-- What one `select` of a watcher receives: an event from its sink, or the value
read from `sub.Err()`. -/
inductive Received (ε : Type) where
  | event (ev : ε)
  | subErr (err : Option Error)
deriving DecidableEq, Repr

/-- Stand-in for an established `event.Subscription` with its sink: the values the
successive `select`s of the watcher receive, in order. -/
abbrev Subscription (ε : Type) := List (Received ε)

/-- Stand-in for the generated `TTFT20Filterer`: the outcome of its two watch
methods, an error or the established subscription. -/
structure TTFT20Filterer where
  WatchTransfer : Except Error (Subscription TTFT20Transfer)
  WatchMint : Except Error (Subscription TTFT20Mint)

/-- Type of the generated constructor `NewTTFT20Filterer(address, filterer)`, which is
not part of `bridge.go` and is taken as a parameter by the watchers. -/
abbrev FiltererBinding := Address → Client → Except Error TTFT20Filterer

/-- What a watcher can be seen doing. -/
inductive WatchObs where
  /-- The line `log.Info("Noticed transfer event", "from", ..., "to", ..., "amount", ...)`. -/
  | InfoTransfer (sender : Address) (recipient : Address) (amount : Option Int)
  /-- The line `log.Info("Noticed mint event", "receiver", ..., "amount", ..., "TFT tx id", ...)`. -/
  | InfoMint (receiver : Address) (amount : Option Int) (txid : String)
  /-- The deferred `sub.Unsubscribe()`. -/
  | Unsubscribe
deriving DecidableEq, Repr

/-- Where a watcher stands once everything delivered so far has been received: it
returned an error value, or it is blocked in its `select`. -/
inductive WatchResult where
  | returned (err : Option Error)
  | blocked
deriving DecidableEq, Repr

/-- The `for { select { ... } }` of `SubscribeTransfers` with its deferred
`Unsubscribe`, over the values received. -/
def watchTransfers : Subscription TTFT20Transfer → WatchResult × List WatchObs
  | [] => (.blocked, [])
  | .subErr err :: _ => (.returned err, [.Unsubscribe])
  | .event transfer :: rest =>
    let next := watchTransfers rest
    (next.1, .InfoTransfer transfer.From transfer.To transfer.Tokens :: next.2)

/-- The `for { select { ... } }` of `SubscribeMint` with its deferred `Unsubscribe`,
over the values received. -/
def watchMint : Subscription TTFT20Mint → WatchResult × List WatchObs
  | [] => (.blocked, [])
  | .subErr err :: _ => (.returned err, [.Unsubscribe])
  | .event mint :: rest =>
    let next := watchMint rest
    (next.1, .InfoMint mint.Receiver mint.Tokens mint.Txid :: next.2)

/-- The method `SubscribeTransfers`: subscribes to Transfer events on the given
contract and logs each of them until the subscription reports an error. -/
def ethBridge.SubscribeTransfers (NewTTFT20Filterer : FiltererBinding) (op : ethBridge)
    (contractAddress : Address) : WatchResult × List WatchObs :=
  match NewTTFT20Filterer contractAddress op.client with
  | .error err => (.returned (some err), [])
  | .ok filter =>
    match filter.WatchTransfer with
    | .error err => (.returned (some err), [])
    | .ok sub => watchTransfers sub

/-- The method `SubscribeMint`: subscribes to Mint events on the given contract and
logs each of them until the subscription reports an error. -/
def ethBridge.SubscribeMint (NewTTFT20Filterer : FiltererBinding) (op : ethBridge)
    (contractAddress : Address) : WatchResult × List WatchObs :=
  match NewTTFT20Filterer contractAddress op.client with
  | .error err => (.returned (some err), [])
  | .ok filter =>
    match filter.WatchMint with
    | .error err => (.returned (some err), [])
    | .ok sub => watchMint sub

/-- The log line a transfer event produces. -/
def TTFT20Transfer.info (transfer : TTFT20Transfer) : WatchObs :=
  .InfoTransfer transfer.From transfer.To transfer.Tokens

/-- The log line a mint event produces. -/
def TTFT20Mint.info (mint : TTFT20Mint) : WatchObs :=
  .InfoMint mint.Receiver mint.Tokens mint.Txid

/-- A filterer whose subscriptions deliver two events and then the error
"connection lost"; what follows the error is never received. -/
def demoFilterer : TTFT20Filterer where
  WatchTransfer := .ok
    [.event { From := 1, To := 2, Tokens := some 5 },
      .event { From := 2, To := 3, Tokens := some 7 },
      .subErr (some "connection lost"),
      .event { From := 3, To := 4, Tokens := some 9 }]
  WatchMint := .ok
    [.event { Receiver := 2, Tokens := some 5, Txid := "tx1" },
      .event { Receiver := 3, Tokens := some 7, Txid := "tx2" },
      .subErr (some "connection lost"),
      .event { Receiver := 4, Tokens := some 9, Txid := "tx3" }]

/-- A filterer binding that always succeeds with `demoFilterer`. -/
def demoFiltererBinding : FiltererBinding := fun _ _ => .ok demoFilterer

/-! ## Construction of the bridge (`newEthBridge`, `newRinkebyEthBridge`)

The devp2p node, the key store files and the bootnode parsers are outside
`bridge.go`; the outcomes of their operations are parameters. -/

/-- Stand-in for `*discv5.Node`: a bootnode, known by the URL it prints. -/
structure DiscNode where
  url : String
deriving DecidableEq, Repr

/-- The method `String` of a bootnode. -/
def DiscNode.String (boot : DiscNode) : String := boot.url

/-- Stand-in for `*enode.Node`. -/
structure Enode where
  url : String
deriving DecidableEq, Repr

/-- Stand-in for `core.Genesis`: the chain configuration it carries. -/
structure Genesis where
  Config : ChainConfig
deriving DecidableEq, Repr

/-- Outcome of a Go call that can return a value, return an error, or panic. -/
inductive Outcome (α : Type) where
  | ok (value : α)
  | error (err : Error)
  | panic (msg : String)

/-- The outcomes of the node operations `newEthBridge` relies on. -/
structure NodeEnv where
  /-- The error of `node.New(&node.Config{...})`. -/
  New : Option Error
  /-- The error of `stack.Register` for the light client service. -/
  RegisterLes : Option Error
  /-- The error of `stack.Register` for the ethstats service. -/
  RegisterStats : Option Error
  /-- The error of `stack.Start()`. -/
  Start : Option Error
  /-- The function `enode.ParseV4`, a Go `(*enode.Node, error)`. -/
  ParseV4 : String → Option Enode × Option Error
  /-- The result of `stack.Attach()`, wrapped by `ethclient.NewClient`. -/
  Attach : Except Error Client

/-- One call made on the node stack. -/
inductive StackCall where
  | New (port : Int) (enodes : List DiscNode)
  | RegisterLes (network : Int) (genesis : Genesis)
  | RegisterStats (stats : String)
  | Start
  | AddPeer (old : Option Enode)
  | Attach
  | Stop
deriving DecidableEq, Repr

/-- The calls `stack.Server().AddPeer(...)`. -/
def StackCall.isAddPeer : StackCall → Bool
  | .AddPeer _ => true
  | _ => false

/-- The loop `for _, boot := range enodes` of `newEthBridge`: the bootnode is parsed
again from its string form and `AddPeer(old)` is called when `err != nil`. -/
def addBootnodePeers (ParseV4 : String → Option Enode × Option Error) :
    List DiscNode → List StackCall
  | [] => []
  | boot :: rest =>
    let parsed := ParseV4 boot.String
    if parsed.2 ≠ none then
      StackCall.AddPeer parsed.1 :: addBootnodePeers ParseV4 rest
    else
      addBootnodePeers ParseV4 rest

/-- The function `newEthBridge`: assembles and starts the node, adds bootnode peers,
attaches a client and builds the bridge for the first account of the key store.
Returns the outcome and the calls made on the node stack. -/
def newEthBridge (env : NodeEnv) (genesis : Genesis) (port : Int) (enodes : List DiscNode)
    (network : Int) (stats : String) (ks : KeyStore) : Outcome ethBridge × List StackCall :=
  match env.New with
  | some err => (.error err, [.New port enodes])
  | none =>
    match env.RegisterLes with
    | some err => (.error err, [.New port enodes, .RegisterLes network genesis])
    | none =>
      let statsStep : Option Error × List StackCall :=
        if stats ≠ "" then (env.RegisterStats, [.RegisterStats stats]) else (none, [])
      let assembled : List StackCall :=
        [.New port enodes, .RegisterLes network genesis] ++ statsStep.2
      match statsStep.1 with
      | some err => (.error err, assembled)
      | none =>
        match env.Start with
        | some err => (.error err, assembled ++ [.Start])
        | none =>
          let booted := assembled ++ .Start :: addBootnodePeers env.ParseV4 enodes
          match env.Attach with
          | .error err => (.error err, booted ++ [.Attach, .Stop])
          | .ok client =>
            match ks.Accounts with
            | [] => (.panic "runtime error: index out of range", booted ++ [.Attach])
            | account :: _ =>
              (.ok { config := genesis.Config, client := client, keystore := ks,
                     account := account, head := none, balance := none, nonce := 0,
                     price := none },
                booted ++ [.Attach])

/-- What `newRinkebyEthBridge` finds around it: the Rinkeby constants of go-ethereum,
the bootnode parser, the key store directory, the file system and the node. The key
store operations return the key store as they leave it. -/
structure RinkebyEnv where
  /-- The list `params.RinkebyBootnodes`. -/
  RinkebyBootnodes : List String
  /-- The genesis block `core.DefaultRinkebyGenesisBlock()`. -/
  RinkebyGenesisBlock : Genesis
  /-- The function `discv5.ParseNode`. -/
  ParseNode : String → Except Error DiscNode
  /-- The key store opened by `keystore.NewKeyStore` on the keys directory. -/
  NewKeyStore : KeyStore
  /-- The function `ioutil.ReadFile`. -/
  ReadFile : String → Except Error String
  /-- The method `ks.Import(blob, passphrase, newPassphrase)`. -/
  Import : KeyStore → String → String → String → Except Error (Account × KeyStore)
  /-- The method `ks.Unlock(account, passphrase)`. -/
  Unlock : KeyStore → Account → String → Except Error KeyStore
  /-- The node operations used by `newEthBridge`. -/
  node : NodeEnv

/-- The first loop of `newRinkebyEthBridge`: every bootnode URL is parsed, the first
failure is returned as an error. -/
def parseBootnodes (ParseNode : String → Except Error DiscNode) :
    List String → Except Error (List DiscNode)
  | [] => .ok []
  | boot :: rest =>
    match ParseNode boot with
    | .error err => .error ("Failed to parse bootnode URL" ++ "url" ++ boot ++ "err" ++ err)
    | .ok url =>
      match parseBootnodes ParseNode rest with
      | .error err => .error err
      | .ok enodes => .ok (url :: enodes)

/-- The pieces of a character sequence between commas, as `strings.Split(s, ",")`
cuts them: a sequence without comma is one piece, the empty one included. -/
def splitAtCommas : List Char → List (List Char)
  | [] => [[]]
  | c :: rest =>
    if c = ',' then
      [] :: splitAtCommas rest
    else
      match splitAtCommas rest with
      | [] => [[c]]
      | piece :: pieces => (c :: piece) :: pieces

/-- The expression `strings.Split(strings.Join(list, ","), ",")`. -/
def splitJoined (list : List String) : List String :=
  (splitAtCommas (String.intercalate "," list).data).map String.mk

/-- The `if accountJSON != ""` statement of `newRinkebyEthBridge`: the account of the
key file is imported, or the first account of the key store is taken. Returns the
account `acc` and the key store as the statement leaves it. -/
def pickAccount (env : RinkebyEnv) (ks : KeyStore) (accountJSON accountPass : String) :
    Except Error (Account × KeyStore) :=
  if accountJSON ≠ "" then
    match env.ReadFile accountJSON with
    | .error err => .error err
    | .ok blob => env.Import ks blob accountPass accountPass
  else
    match ks.Accounts with
    | [] => .error "Failed to find an account in the keystore"
    | acc :: _ => .ok (acc, ks)

/-- The function `newRinkebyEthBridge`: parses the Rinkeby bootnodes, imports the
account of `accountJSON` or takes the first account of the key store, unlocks it and
calls `newEthBridge`. The log level `ethLog` only configures the logger. -/
def newRinkebyEthBridge (env : RinkebyEnv) (port : Int) (accountJSON accountPass : String)
    (_ethLog : Int) : Outcome ethBridge × List StackCall :=
  match parseBootnodes env.ParseNode (splitJoined env.RinkebyBootnodes) with
  | .error err => (.error err, [])
  | .ok enodes =>
    match pickAccount env env.NewKeyStore accountJSON accountPass with
    | .error err => (.error err, [])
    | .ok (acc, ks) =>
      match env.Unlock ks acc accountPass with
      | .error err => (.error err, [])
      | .ok ks =>
        newEthBridge env.node env.RinkebyGenesisBlock port enodes RinkebyNetworkID "" ks

/-- A node whose operations all succeed and whose `ParseV4` refuses exactly the URL
of the second bootnode of `demoBootnodes`. -/
def okNode : NodeEnv where
  New := none
  RegisterLes := none
  RegisterStats := none
  Start := none
  ParseV4 := fun url =>
    if url = "bad://bb@10.0.0.2:30303" then (none, some "invalid URL scheme")
    else (some { url := url }, none)
  Attach := .ok okClient

/-- Three bootnodes; the second does not parse again from its string form. -/
def demoBootnodes : List DiscNode :=
  [{ url := "enode://aa@10.0.0.1:30303" }, { url := "bad://bb@10.0.0.2:30303" },
    { url := "enode://cc@10.0.0.3:30303" }]

/-- The Rinkeby genesis of the demonstration. -/
def demoGenesis : Genesis := { Config := { ChainID := some 4 } }

/-- A key store without accounts. -/
def emptyKeyStore : KeyStore := { demoKeyStore with Accounts := [] }

/-- The account held by the key file of the demonstration. -/
def importedAccount : Account := { Address := 3, URL := "keystore://third" }

/-- Surroundings in which everything succeeds: the key store already holds accounts
1 and 2, an import adds `importedAccount` after them (the accounts stay sorted by
URL), and unlocking leaves the list of accounts as it is. -/
def demoRinkebyEnv : RinkebyEnv where
  RinkebyBootnodes := ["enode://aa@10.0.0.1:30303", "enode://cc@10.0.0.3:30303"]
  RinkebyGenesisBlock := demoGenesis
  ParseNode := fun url => .ok { url := url }
  NewKeyStore := demoKeyStore
  ReadFile := fun _ => .ok "key file"
  Import := fun ks _ _ _ =>
    .ok (importedAccount, { ks with Accounts := ks.Accounts ++ [importedAccount] })
  Unlock := fun ks _ _ => .ok ks
  node := okNode

/-- A genesis for the main network, whose chain identifier is 1. -/
def mainnetGenesis : Genesis := { Config := { ChainID := some 1 } }

/-- The bridge `newEthBridge` builds from `okNode`, `mainnetGenesis` and
`demoKeyStore`. -/
def mainnetBridge : ethBridge where
  config := { ChainID := some 1 }
  client := okClient
  keystore := demoKeyStore
  account := { Address := 1, URL := "keystore://first" }
  head := none
  balance := none
  nonce := 0
  price := none

end Bridge

/-! ## HTTP handlers of the transaction database (`pkg/api/transactiondb.go`) -/

namespace Api

/-- A Go `error` value: `ref` tells values apart the way `==` on two `errors.New`
results does, `message` is what `err.Error()` prints. -/
structure GoError where
  ref : Nat
  message : String
deriving DecidableEq, Repr

/-- The constant `http.StatusNoContent`. -/
def StatusNoContent : Nat := 204

/-- The constant `http.StatusBadRequest`. -/
def StatusBadRequest : Nat := 400

/-- The constant `http.StatusPaymentRequired`. -/
def StatusPaymentRequired : Nat := 402

/-- The constant `http.StatusNotFound`. -/
def StatusNotFound : Nat := 404

/-- The constant `http.StatusInternalServerError`. -/
def StatusInternalServerError : Nat := 500

/-- The 3bot error values of the package `tftypes`, which is defined outside
`transactiondb.go`: they are parameters. -/
structure BotErrors where
  ErrBotNotFound : GoError
  ErrBotNameNotFound : GoError
  ErrBotKeyNotFound : GoError
  ErrBotNameExpired : GoError

/-- The function `threeBotErrorAsHTTPStatusCode`: converts a 3bot error to an http
status code; the cases of the `switch` are tried in order. -/
def threeBotErrorAsHTTPStatusCode (tftypes : BotErrors) (err : Option GoError) : Nat :=
  if err = some tftypes.ErrBotNotFound ∨ err = some tftypes.ErrBotNameNotFound ∨
      err = some tftypes.ErrBotKeyNotFound then
    StatusNotFound
  else if err = some tftypes.ErrBotNameExpired then
    StatusPaymentRequired
  else
    StatusInternalServerError

/-- Stand-in for `types.UnlockHash`, a TFT address. -/
structure UnlockHash where
  text : String
deriving DecidableEq, Repr

/-- Stand-in for `tftypes.ERC20Address`. -/
structure ERC20Address where
  hex : String
deriving DecidableEq, Repr

/-- The struct `TransactionDBGetERC20RelatedAddress`: the requested ERC20-related
addresses. -/
structure TransactionDBGetERC20RelatedAddress where
  TFTAddress : UnlockHash
  ERC20Address : ERC20Address
deriving DecidableEq, Repr

/-- What the ERC20-related-address handler uses from `tftypes`, `types` and the
transaction database, all defined outside `transactiondb.go`. The lookups return
Go's `(value, found, err)`. -/
structure AddressEnv where
  /-- The constant `tftypes.ERC20AddressLength`. -/
  ERC20AddressLength : Nat
  /-- The method `LoadString` of an ERC20 address. -/
  LoadERC20Address : String → Except GoError ERC20Address
  /-- The method `LoadString` of an unlock hash. -/
  LoadUnlockHash : String → Except GoError UnlockHash
  /-- The method `txdb.GetTFTAddressForERC20Address`. -/
  GetTFTAddressForERC20Address : ERC20Address → UnlockHash × Bool × Option GoError
  /-- The method `txdb.GetERC20AddressForTFTAddress`. -/
  GetERC20AddressForTFTAddress : UnlockHash → ERC20Address × Bool × Option GoError

/-- What a handler writes to its `http.ResponseWriter`. -/
inductive Response where
  /-- The call `api.WriteError(w, api.Error{Message: message}, status)`. -/
  | WriteError (message : String) (status : Nat)
  /-- The call `api.WriteJSON(w, resp)`. -/
  | WriteJSON (resp : TransactionDBGetERC20RelatedAddress)
deriving DecidableEq, Repr

/-- The handler returned by `NewTransactionDBGetERC20RelatedAddressHandler`, applied to
the `address` parameter of the request. Go's `len` of a string is its number of
bytes. -/
def NewTransactionDBGetERC20RelatedAddressHandler (env : AddressEnv) (addressStr : String) :
    Response :=
  if addressStr.utf8ByteSize = env.ERC20AddressLength * 2 then
    match env.LoadERC20Address addressStr with
    | .error err =>
      .WriteError ("invalid ERC20 address given: " ++ err.message) StatusBadRequest
    | .ok erc20Address =>
      match env.GetTFTAddressForERC20Address erc20Address with
      | (_, _, some err) =>
        .WriteError ("error while fetching TFT Address: " ++ err.message)
          StatusInternalServerError
      | (_, false, none) =>
        .WriteError "error while fetching TFT Address: address not found" StatusNoContent
      | (tftAddress, true, none) =>
        .WriteJSON { TFTAddress := tftAddress, ERC20Address := erc20Address }
  else
    match env.LoadUnlockHash addressStr with
    | .error err =>
      .WriteError ("invalid (TFT) address given: " ++ err.message) StatusBadRequest
    | .ok tftAddress =>
      match env.GetERC20AddressForTFTAddress tftAddress with
      | (_, _, some err) =>
        .WriteError ("error while fetching ERC20 Address: " ++ err.message)
          StatusInternalServerError
      | (_, false, none) =>
        .WriteError "error while fetching ERC20 Address: address not found" StatusNoContent
      | (erc20Address, true, none) =>
        .WriteJSON { TFTAddress := tftAddress, ERC20Address := erc20Address }

/-- Four distinct 3bot error values. -/
def demoBotErrors : BotErrors where
  ErrBotNotFound := { ref := 1, message := "3bot not found" }
  ErrBotNameNotFound := { ref := 2, message := "3bot name not found" }
  ErrBotKeyNotFound := { ref := 3, message := "3bot public key not found" }
  ErrBotNameExpired := { ref := 4, message := "3bot name expired" }

/-- A database that knows one pair of addresses; ERC20 addresses are 40 hexadecimal
digits, and the lookup of the TFT address "01broken" fails. -/
def demoAddressEnv : AddressEnv where
  ERC20AddressLength := 20
  LoadERC20Address := fun str =>
    if str.data.all Char.isAlphanum then .ok { hex := str }
    else .error { ref := 10, message := "invalid hexadecimal digit" }
  LoadUnlockHash := fun str =>
    if str.utf8ByteSize < 4 then .error { ref := 11, message := "invalid unlock hash length" }
    else .ok { text := str }
  GetTFTAddressForERC20Address := fun address =>
    if address.hex = "828de486adc50aa52dab52a2ec284bcac75be211" then
      ({ text := "01f68299b26a89efdb4351a61c3a062321d23edbc1399c8499947c1313375609ad" },
        true, none)
    else ({ text := "" }, false, none)
  GetERC20AddressForTFTAddress := fun address =>
    if address.text = "01f68299b26a89efdb4351a61c3a062321d23edbc1399c8499947c1313375609ad" then
      ({ hex := "828de486adc50aa52dab52a2ec284bcac75be211" }, true, none)
    else if address.text = "01broken" then
      ({ hex := "" }, false, some { ref := 12, message := "database is closed" })
    else ({ hex := "" }, false, none)

end Api

/-! ## Network setup of the daemon (`cmd/tfchaind/main.go`) -/

namespace Tfchaind

/-- The variable `devnet`. -/
def devnet : String := "devnet"

/-- The variable `testnet`. -/
def testnet : String := "testnet"

/-- The variable `standardnet`. -/
def standardnet : String := "standard"

/-- Stand-in for `types.ChainConstants`: an encoding of its fields, empty for the
zero value. -/
structure ChainConstants where
  encoded : List Nat
deriving DecidableEq, Repr

/-- Stand-in for `daemon.NetworkConfig`; a nil slice of peers is `none`. -/
structure NetworkConfig where
  Constants : ChainConstants
  BootstrapPeers : Option (List String)
deriving DecidableEq, Repr

/-- The zero value `daemon.NetworkConfig{}`. -/
def NetworkConfig.zero : NetworkConfig := { Constants := { encoded := [] }, BootstrapPeers := none }

/-- The functions of the package `config` used by the setup; the package is defined
outside `main.go`, so their results are parameters. -/
structure Config where
  GetStandardnetGenesis : ChainConstants
  GetStandardnetBootstrapPeers : Option (List String)
  GetTestnetGenesis : ChainConstants
  GetTestnetBootstrapPeers : Option (List String)
  GetDevnetGenesis : ChainConstants

/-- A call `RegisteredBlockHeightLimitedMultiSignatureCondition(blockHeight)`. -/
structure Registration where
  blockHeight : Nat
deriving DecidableEq, Repr

/-- An error built by `fmt.Errorf`: the format and its operand, not rendered. -/
structure FormattedError where
  format : String
  operand : String
deriving DecidableEq, Repr

/-- The error built by `fmt.Errorf("Netork name %q not recognized", name)`. -/
def notRecognized (name : String) : FormattedError :=
  { format := "Netork name %q not recognized", operand := name }

/-- The function `SetupNetworksAndTypes`: injects the chain constants and bootstrap
peers of the chosen network. Returns the configuration, the error, and the
registrations of the multisig condition it made. -/
def SetupNetworksAndTypes (config : Config) (name : String) :
    (NetworkConfig × Option FormattedError) × List Registration :=
  if name = standardnet then
    (({ Constants := config.GetStandardnetGenesis,
        BootstrapPeers := config.GetStandardnetBootstrapPeers }, none),
      [{ blockHeight := 42000 }])
  else if name = testnet then
    (({ Constants := config.GetTestnetGenesis,
        BootstrapPeers := config.GetTestnetBootstrapPeers }, none),
      [{ blockHeight := 0 }])
  else if name = devnet then
    (({ Constants := config.GetDevnetGenesis, BootstrapPeers := none }, none),
      [{ blockHeight := 0 }])
  else
    ((NetworkConfig.zero, some (notRecognized name)), [])

/-- Some results of the package `config`. -/
def demoConfig : Config where
  GetStandardnetGenesis := { encoded := [1] }
  GetStandardnetBootstrapPeers := some ["bootstrap1.threefoldtoken.com:23112"]
  GetTestnetGenesis := { encoded := [2] }
  GetTestnetBootstrapPeers := some ["bootstrap1.testnet.threefoldtoken.com:23112"]
  GetDevnetGenesis := { encoded := [3] }

end Tfchaind

/-! ## Command wrapper of the client (`rivine/pkg/client/defaultclient.go`) -/

namespace RivineClient

/-- The constant `exitCodeGeneral`. -/
def exitCodeGeneral : Nat := 1

/-- The constant `exitCodeUsage`, `EX_USAGE` in sysexits.h. -/
def exitCodeUsage : Nat := 64

/-- The kinds of `reflect.Kind`. -/
inductive Kind where
  | Invalid | Bool | Int | Int8 | Int16 | Int32 | Int64
  | Uint | Uint8 | Uint16 | Uint32 | Uint64 | Uintptr
  | Float32 | Float64 | Complex64 | Complex128
  | Array | Chan | Func | Interface | Map | Ptr | Slice | String | Struct | UnsafePointer
deriving DecidableEq, Repr

/-- A parameter type as reflection shows it: its kind, its printed name, and whether
a value of type `string` is assignable to it (`AssignableTo`). Among the types of
kind `String` this holds for the type `string` and fails for every defined type
such as `type Amount string`. -/
structure ParamType where
  Kind : Kind
  Name : String
  AcceptsString : Bool
deriving DecidableEq, Repr

/-- The predeclared type `string`. -/
def ParamType.string : ParamType := { Kind := .String, Name := "string", AcceptsString := true }

/-- A non-nil `interface{}` value handed to `Wrap`, as `reflect.TypeOf` and
`reflect.ValueOf` show it: the kind of its type, the parameter types when it is a
function, and whether it is a nil function value. -/
structure GoValue where
  Kind : Kind
  In : List ParamType
  IsNil : Bool
deriving DecidableEq, Repr

/-- What running a wrapped command does, in order. -/
inductive Effect where
  /-- The call `cmd.UsageFunc()(cmd)`. -/
  | Usage
  /-- The call `os.Exit(code)`, which ends the process. -/
  | Exit (code : Nat)
  /-- The wrapped function is entered with these parameters. -/
  | CallFn (args : List String)
  /-- A panic raised while running the command. -/
  | Panic (msg : String)
deriving DecidableEq, Repr

/-- The call `fnVal.Call(argVals)` of the package `reflect`, for as many `string`
values as the function has parameters: it panics for a nil function and for a
parameter type a `string` is not assignable to, and enters the function otherwise. -/
def reflectCall (fn : GoValue) (args : List String) : List Effect :=
  if fn.IsNil then
    [.Panic "reflect.Value.Call: call of nil function"]
  else
    match fn.In.find? fun t => !t.AcceptsString with
    | some t => [.Panic ("reflect: Call using string as type " ++ t.Name)]
    | none => [.CallFn args]

/-- The function `Wrap`: wraps a generic command with a check that the command has
been passed the correct number of arguments. The result is the panic message of
`Wrap` itself, or the returned command as a function of its `args`. The argument is
`none` for a nil interface, whose `reflect.TypeOf` is nil. -/
def Wrap (fn : Option GoValue) : Except String (List String → List Effect) :=
  match fn with
  | none => .error "runtime error: invalid memory address or nil pointer dereference"
  | some fn =>
    if fn.Kind ≠ .Func then
      .error "wrapped function has wrong type signature"
    else if fn.In.any fun t => t.Kind ≠ .String then
      .error "wrapped function has wrong type signature"
    else
      .ok fun args =>
        if args.length ≠ fn.In.length then
          [.Usage, .Exit exitCodeUsage]
        else
          reflectCall fn args

/-- A function `func(a, b string)`. -/
def twoStrings : GoValue :=
  { Kind := .Func, In := [ParamType.string, ParamType.string], IsNil := false }

/-- A function `func(a Amount)` for a defined type `type Amount string`. -/
def definedStringParam : GoValue :=
  { Kind := .Func, In := [{ Kind := .String, Name := "main.Amount", AcceptsString := false }],
    IsNil := false }

end RivineClient

namespace Bridge

/-! ## Shared lemmas -/

theorem GetSignerFunc_trace_countP_isTransact (op : ethBridge) (signer : Signer)
    (address : Address) (tx : Transaction) :
    (op.GetSignerFunc signer address tx).2.countP Call.isTransact = 0 := by
  unfold ethBridge.GetSignerFunc
  split <;> simp [Call.isTransact]

theorem run_trace_countP_isTransact (op : ethBridge) (b : BoundCall) :
    (BoundCall.run op.client op.transactOpts b).2.countP Call.isTransact = 0 := by
  induction b with
  | done tx err => simp [BoundCall.run]
  | sign signer address tx next ih =>
    simp only [BoundCall.run, List.countP_cons, List.countP_append, ih, Call.isTransact]
    have h := GetSignerFunc_trace_countP_isTransact op signer address tx
    simp [ethBridge.transactOpts, h]
  | send tx next ih =>
    simp [BoundCall.run, List.countP_cons, ih, Call.isTransact]

theorem TransferFunds_some (NewT : TransactorBinding) (op : ethBridge)
    (contractAddress recipient : Address) (amount : Int) :
    op.TransferFunds NewT contractAddress recipient (some amount) =
      match NewT contractAddress op.client with
      | .error err => (some err, [Call.NewTTFT20Transactor contractAddress])
      | .ok tr =>
        ((BoundCall.run op.client op.transactOpts
            (tr.Transfer op.transactOpts recipient amount)).1.2,
          Call.NewTTFT20Transactor contractAddress ::
            Call.Transfer op.account.Address recipient amount ::
            (BoundCall.run op.client op.transactOpts
              (tr.Transfer op.transactOpts recipient amount)).2) := by
  unfold ethBridge.TransferFunds
  cases NewT contractAddress op.client <;> rfl

theorem Mint_some (NewT : TransactorBinding) (op : ethBridge)
    (contractAddress receiver : Address) (amount : Int) (txID : String) :
    op.Mint NewT contractAddress receiver (some amount) txID =
      match NewT contractAddress op.client with
      | .error err => (some err, [Call.NewTTFT20Transactor contractAddress])
      | .ok tr =>
        ((BoundCall.run op.client op.transactOpts
            (tr.MintTokens op.transactOpts receiver amount txID)).1.2,
          Call.NewTTFT20Transactor contractAddress ::
            Call.MintTokens op.account.Address receiver amount txID ::
            (BoundCall.run op.client op.transactOpts
              (tr.MintTokens op.transactOpts receiver amount txID)).2) := by
  unfold ethBridge.Mint
  cases NewT contractAddress op.client <;> rfl

/-! ## Precondition and authorisation checks of the issuing operations -/

/-- C1: with a nil amount, `Mint` and `TransferFunds` return the error "invalid amount"
and their trace of calls is empty: no binding, signer, keystore or submission call
is made, whatever the contract address, recipient and transaction id. -/
theorem nil_amount_rejected_without_calls (NewT : TransactorBinding) (op : ethBridge)
    (contractAddress recipient : Address) (txID : String) :
    op.Mint NewT contractAddress recipient none txID = (some "invalid amount", []) ∧
    op.TransferFunds NewT contractAddress recipient none = (some "invalid amount", []) :=
  ⟨rfl, rfl⟩

/-- C2: the closure returned by `GetSignerFunc` answers a request for an address other
than the bridge account with no transaction and the not-authorized error, without
any keystore call; for the bridge account it returns what the keystore's `SignTx`
returns for that account and records exactly that one keystore call. -/
theorem signer_only_for_bridge_account (op : ethBridge) (signer : Signer)
    (address : Address) (tx : Transaction) :
    (address ≠ op.account.Address →
      op.GetSignerFunc signer address tx =
        ((none, some "not authorized to sign this account"), [])) ∧
    (address = op.account.Address →
      op.GetSignerFunc signer address tx =
        (op.keystore.SignTx op.account tx RinkebyNetworkID,
          [Call.SignTx op.account tx RinkebyNetworkID])) := by
  constructor
  · intro h
    simp [ethBridge.GetSignerFunc, h]
  · intro h
    simp [ethBridge.GetSignerFunc, h]

/-- Witness for C2 on `demoBridge`: address 9 is refused, address 1 is signed for. -/
theorem signer_only_for_bridge_account_witness :
    (9 : Address) ≠ demoBridge.account.Address ∧
    demoBridge.GetSignerFunc .HomesteadSigner 9 { raw := [7] } =
      ((none, some "not authorized to sign this account"), []) ∧
    (1 : Address) = demoBridge.account.Address ∧
    demoBridge.GetSignerFunc .HomesteadSigner 1 { raw := [7] } =
      ((some { raw := [4, 7] }, none),
        [Call.SignTx { Address := 1, URL := "keystore://first" } { raw := [7] } 4]) :=
  ⟨by decide,
   (signer_only_for_bridge_account demoBridge .HomesteadSigner 9 { raw := [7] }).1 (by decide),
   rfl,
   (signer_only_for_bridge_account demoBridge .HomesteadSigner 1 { raw := [7] }).2 rfl⟩

/-- C3: for a non-nil amount, the trace of `TransferFunds` and of `Mint` holds at most
one contract call (`Transfer` / `MintTokens`); when the transactor was created and
that call fails with cause `e`, the operation returns exactly `e` and its trace
holds exactly one contract call, so no second attempt is made. -/
theorem transact_at_most_once_error_preserved (NewT : TransactorBinding) (op : ethBridge)
    (contractAddress recipient : Address) (amount : Int) (txID : String) :
    (op.TransferFunds NewT contractAddress recipient (some amount)).2.countP Call.isTransact ≤ 1 ∧
    (op.Mint NewT contractAddress recipient (some amount) txID).2.countP Call.isTransact ≤ 1 ∧
    (∀ tr e, NewT contractAddress op.client = .ok tr →
      (BoundCall.run op.client op.transactOpts
        (tr.Transfer op.transactOpts recipient amount)).1.2 = some e →
      (op.TransferFunds NewT contractAddress recipient (some amount)).1 = some e ∧
      (op.TransferFunds NewT contractAddress recipient (some amount)).2.countP
        Call.isTransact = 1) ∧
    (∀ tr e, NewT contractAddress op.client = .ok tr →
      (BoundCall.run op.client op.transactOpts
        (tr.MintTokens op.transactOpts recipient amount txID)).1.2 = some e →
      (op.Mint NewT contractAddress recipient (some amount) txID).1 = some e ∧
      (op.Mint NewT contractAddress recipient (some amount) txID).2.countP
        Call.isTransact = 1) := by
  refine ⟨?_, ?_, ?_, ?_⟩
  · rw [TransferFunds_some]
    cases NewT contractAddress op.client with
    | error err => simp [Call.isTransact]
    | ok tr => simp [List.countP_cons, Call.isTransact, run_trace_countP_isTransact]
  · rw [Mint_some]
    cases NewT contractAddress op.client with
    | error err => simp [Call.isTransact]
    | ok tr => simp [List.countP_cons, Call.isTransact, run_trace_countP_isTransact]
  · intro tr e htr he
    rw [TransferFunds_some, htr]
    exact ⟨he, by simp [List.countP_cons, Call.isTransact, run_trace_countP_isTransact]⟩
  · intro tr e htr he
    rw [Mint_some, htr]
    exact ⟨he, by simp [List.countP_cons, Call.isTransact, run_trace_countP_isTransact]⟩

/-- Witness for C3 on `rejectedBridge`, whose client refuses the submission: both
operations return the cause "transaction rejected" after a single contract call. -/
theorem transact_at_most_once_error_preserved_witness :
    demoBinding 77 rejectedBridge.client = .ok demoTransactor ∧
    (BoundCall.run rejectedBridge.client rejectedBridge.transactOpts
      (demoTransactor.Transfer rejectedBridge.transactOpts 2 5)).1.2
        = some "transaction rejected" ∧
    (rejectedBridge.TransferFunds demoBinding 77 2 (some 5)).1 = some "transaction rejected" ∧
    (rejectedBridge.TransferFunds demoBinding 77 2 (some 5)).2.countP Call.isTransact = 1 ∧
    (BoundCall.run rejectedBridge.client rejectedBridge.transactOpts
      (demoTransactor.MintTokens rejectedBridge.transactOpts 2 5 "tx1")).1.2
        = some "transaction rejected" ∧
    (rejectedBridge.Mint demoBinding 77 2 (some 5) "tx1").1 = some "transaction rejected" ∧
    (rejectedBridge.Mint demoBinding 77 2 (some 5) "tx1").2.countP Call.isTransact = 1 :=
  ⟨rfl, rfl,
   ((transact_at_most_once_error_preserved demoBinding rejectedBridge 77 2 5 "tx1").2.2.1
      demoTransactor "transaction rejected" rfl rfl).1,
   ((transact_at_most_once_error_preserved demoBinding rejectedBridge 77 2 5 "tx1").2.2.1
      demoTransactor "transaction rejected" rfl rfl).2,
   rfl,
   ((transact_at_most_once_error_preserved demoBinding rejectedBridge 77 2 5 "tx1").2.2.2
      demoTransactor "transaction rejected" rfl rfl).1,
   ((transact_at_most_once_error_preserved demoBinding rejectedBridge 77 2 5 "tx1").2.2.2
      demoTransactor "transaction rejected" rfl rfl).2⟩

/-! ## The cached snapshot and `refresh` -/

theorem refresh_success_nonce (op : ethBridge) (head : Option Header) (op' : ethBridge)
    (h : op.refresh head = (none, op')) : op'.nonce = 0 := by
  unfold ethBridge.refresh at h
  cases head with
  | none =>
    cases hh : op.client.HeaderByNumber none with
    | error err => simp [hh] at h
    | ok hd =>
      cases hp : op.client.SuggestGasPrice with
      | error err => simp [hh, hp] at h
      | ok price =>
        cases hb : op.client.BalanceAt op.account.Address hd.Number with
        | error err => simp [hh, hp, hb] at h
        | ok balance => simp [hh, hp, hb] at h; rw [← h]
  | some hd =>
    cases hp : op.client.SuggestGasPrice with
    | error err => simp [hp] at h
    | ok price =>
      cases hb : op.client.BalanceAt op.account.Address hd.Number with
      | error err => simp [hp, hb] at h
      | ok balance => simp [hp, hb] at h; rw [← h]

/-- C4: when a sub-query made by `refresh` fails with `e` (the current-header lookup
for a nil head, the suggested gas price, or the balance at the head's number),
`refresh` returns `e` and the bridge, hence its cached head, balance, nonce and
price, is exactly what it was before the call. -/
theorem refresh_failure_keeps_snapshot (op : ethBridge) (head : Option Header) (e : Error)
    (h : (head = none ∧ op.client.HeaderByNumber none = .error e) ∨
      (∃ hd, (head = some hd ∨ (head = none ∧ op.client.HeaderByNumber none = .ok hd)) ∧
        (op.client.SuggestGasPrice = .error e ∨
          (∃ price, op.client.SuggestGasPrice = .ok price ∧
            op.client.BalanceAt op.account.Address hd.Number = .error e)))) :
    op.refresh head = (some e, op) := by
  unfold ethBridge.refresh
  rcases h with ⟨h1, h2⟩ | ⟨hd, hres, hq⟩
  · subst h1
    simp [h2]
  · have hr : (match head with
        | none => op.client.HeaderByNumber none
        | some h => Except.ok h) = Except.ok hd := by
      rcases hres with h1 | ⟨h1, h2⟩
      · subst h1; rfl
      · subst h1; simpa using h2
    simp only [hr]
    rcases hq with hp | ⟨price, hp, hb⟩
    · simp [hp]
    · simp [hp, hb]

/-- Witness for C4 on `staleBridge`, whose balance query fails after the header and
the gas price were obtained: the error is returned and the bridge is unchanged. -/
theorem refresh_failure_keeps_snapshot_witness :
    staleBridge.client.HeaderByNumber none = .ok { Number := some 12, Hash := 120 } ∧
    staleBridge.client.SuggestGasPrice = .ok 3 ∧
    staleBridge.client.BalanceAt staleBridge.account.Address (some 12)
      = .error "balance unavailable" ∧
    staleBridge.refresh none = (some "balance unavailable", staleBridge) :=
  ⟨rfl, rfl, rfl,
   refresh_failure_keeps_snapshot staleBridge none "balance unavailable"
     (Or.inr ⟨{ Number := some 12, Hash := 120 }, Or.inr ⟨rfl, rfl⟩, Or.inr ⟨3, rfl, rfl⟩⟩)⟩

/-- C5: on `demoBridge` the chain reports nonce 7 for the bridge account at the best
header, the refresh succeeds, and the cached nonce afterwards is 0 (it was 5 before):
the cache does not hold the account's nonce. -/
theorem refresh_stores_zero_nonce :
    demoBridge.client.NonceAt demoBridge.account.Address (some 12) = .ok 7 ∧
    demoBridge.nonce = 5 ∧
    (demoBridge.refresh none).1 = none ∧
    (demoBridge.refresh none).2.nonce = 0 :=
  ⟨rfl, rfl, rfl, rfl⟩

/-- C6: after a successful `refresh`, the cached head is the given head or, for a nil
head, the header returned by `HeaderByNumber(nil)`; the cached balance is the result
of `BalanceAt` for the bridge account at that head's number and the cached price is
the result of `SuggestGasPrice`; the three are set in the same update and the
account, client, keystore and configuration are untouched. -/
theorem refresh_success_snapshot (op : ethBridge) (head : Option Header) (op' : ethBridge)
    (h : op.refresh head = (none, op')) :
    ∃ hd price balance,
      (head = some hd ∨ (head = none ∧ op.client.HeaderByNumber none = .ok hd)) ∧
      op.client.SuggestGasPrice = .ok price ∧
      op.client.BalanceAt op.account.Address hd.Number = .ok balance ∧
      op'.head = some hd ∧ op'.balance = some balance ∧ op'.price = some price ∧
      op'.account = op.account ∧ op'.config = op.config := by
  unfold ethBridge.refresh at h
  cases head with
  | none =>
    cases hh : op.client.HeaderByNumber none with
    | error err => simp [hh] at h
    | ok hd =>
      cases hp : op.client.SuggestGasPrice with
      | error err => simp [hh, hp] at h
      | ok price =>
        cases hb : op.client.BalanceAt op.account.Address hd.Number with
        | error err => simp [hh, hp, hb] at h
        | ok balance =>
          simp [hh, hp, hb] at h
          refine ⟨hd, price, balance, Or.inr ⟨rfl, rfl⟩, rfl, hb, ?_⟩
          rw [← h]
          exact ⟨rfl, rfl, rfl, rfl, rfl⟩
  | some hd =>
    cases hp : op.client.SuggestGasPrice with
    | error err => simp [hp] at h
    | ok price =>
      cases hb : op.client.BalanceAt op.account.Address hd.Number with
      | error err => simp [hp, hb] at h
      | ok balance =>
        simp [hp, hb] at h
        refine ⟨hd, price, balance, Or.inl rfl, rfl, hb, ?_⟩
        rw [← h]
        exact ⟨rfl, rfl, rfl, rfl, rfl⟩

/-- Witness for C6 on `demoBridge` with a nil head: the refresh succeeds and leaves
the best header 12, balance 50 and price 3 in the cache. -/
theorem refresh_success_snapshot_witness :
    demoBridge.refresh none = (none, refreshedBridge) ∧
    ∃ hd price balance,
      ((none : Option Header) = some hd ∨
        ((none : Option Header) = none ∧ demoBridge.client.HeaderByNumber none = .ok hd)) ∧
      demoBridge.client.SuggestGasPrice = .ok price ∧
      demoBridge.client.BalanceAt demoBridge.account.Address hd.Number = .ok balance ∧
      refreshedBridge.head = some hd ∧ refreshedBridge.balance = some balance ∧
      refreshedBridge.price = some price ∧
      refreshedBridge.account = demoBridge.account ∧
      refreshedBridge.config = demoBridge.config :=
  ⟨rfl, refresh_success_snapshot demoBridge none refreshedBridge rfl⟩

/-- C10: on `demoBridge`, whose cached head has number 20, a refresh from the older
head of number 15 succeeds and replaces the whole snapshot: the cached head becomes
the older head, so the cached head moved backwards. -/
theorem refresh_accepts_older_head :
    demoBridge.head = some { Number := some 20, Hash := 200 } ∧
    olderHead.Number = some 15 ∧
    demoBridge.refresh (some olderHead) =
      (none, { demoBridge with
        head := some olderHead, balance := some 50, price := some 3, nonce := 0 }) :=
  ⟨rfl, rfl, rfl⟩

/-! ## What the issuing operations do not check -/

/-- C7 (counterexample): on `demoBridge` the negative amount -1 is not refused: `Mint`
and `TransferFunds` return the nil error after creating the transactor, calling
`MintTokens` / `Transfer` with -1, signing through the keystore and submitting. -/
theorem negative_amount_not_rejected :
    (-1 : Int) < 0 ∧
    demoBridge.Mint demoBinding 77 2 (some (-1)) "tx1" =
      (none,
        [Call.NewTTFT20Transactor 77, Call.MintTokens 1 2 (-1) "tx1",
          Call.SignerFn .HomesteadSigner 1 { raw := [2, -1, 3] },
          Call.SignTx { Address := 1, URL := "keystore://first" } { raw := [2, -1, 3] } 4,
          Call.SendTransaction { raw := [4, 2, -1, 3] }]) ∧
    demoBridge.TransferFunds demoBinding 77 2 (some (-1)) =
      (none,
        [Call.NewTTFT20Transactor 77, Call.Transfer 1 2 (-1),
          Call.SignerFn .HomesteadSigner 1 { raw := [2, -1] },
          Call.SignTx { Address := 1, URL := "keystore://first" } { raw := [2, -1] } 4,
          Call.SendTransaction { raw := [4, 2, -1] }]) :=
  ⟨by decide, rfl, rfl⟩

/-- C7 (amended): a negative amount is handled like any other non-nil amount. When the
transactor cannot be created, `Mint` and `TransferFunds` return that creation error
after that single call; when it is created, they call `MintTokens` / `Transfer` with
the negative amount right after the creation and return the error of that call (nil
when it succeeds). -/
theorem negative_amount_reaches_contract (NewT : TransactorBinding) (op : ethBridge)
    (contractAddress recipient : Address) (amount : Int) (txID : String) (h : amount < 0) :
    (∀ err, NewT contractAddress op.client = .error err →
      op.Mint NewT contractAddress recipient (some amount) txID =
        (some err, [Call.NewTTFT20Transactor contractAddress]) ∧
      op.TransferFunds NewT contractAddress recipient (some amount) =
        (some err, [Call.NewTTFT20Transactor contractAddress])) ∧
    (∀ tr, NewT contractAddress op.client = .ok tr →
      (op.Mint NewT contractAddress recipient (some amount) txID).1 =
        (BoundCall.run op.client op.transactOpts
          (tr.MintTokens op.transactOpts recipient amount txID)).1.2 ∧
      (op.Mint NewT contractAddress recipient (some amount) txID).2 =
        Call.NewTTFT20Transactor contractAddress ::
          Call.MintTokens op.account.Address recipient amount txID ::
          (BoundCall.run op.client op.transactOpts
            (tr.MintTokens op.transactOpts recipient amount txID)).2 ∧
      (op.TransferFunds NewT contractAddress recipient (some amount)).1 =
        (BoundCall.run op.client op.transactOpts
          (tr.Transfer op.transactOpts recipient amount)).1.2 ∧
      (op.TransferFunds NewT contractAddress recipient (some amount)).2 =
        Call.NewTTFT20Transactor contractAddress ::
          Call.Transfer op.account.Address recipient amount ::
          (BoundCall.run op.client op.transactOpts
            (tr.Transfer op.transactOpts recipient amount)).2) := by
  have _hneg := h
  constructor
  · intro err herr
    rw [Mint_some, TransferFunds_some, herr]
    exact ⟨rfl, rfl⟩
  · intro tr htr
    rw [Mint_some, TransferFunds_some, htr]
    exact ⟨rfl, rfl, rfl, rfl⟩

/-- Witness for C7 (amended) at amount -1: with a failing binding both operations
return the creation error; with `demoBinding` both return nil. -/
theorem negative_amount_reaches_contract_witness :
    (-1 : Int) < 0 ∧
    failingBinding 77 demoBridge.client = .error "no contract code at given address" ∧
    demoBridge.Mint failingBinding 77 2 (some (-1)) "tx1" =
      (some "no contract code at given address", [Call.NewTTFT20Transactor 77]) ∧
    demoBinding 77 demoBridge.client = .ok demoTransactor ∧
    (demoBridge.Mint demoBinding 77 2 (some (-1)) "tx1").1 =
      (BoundCall.run demoBridge.client demoBridge.transactOpts
        (demoTransactor.MintTokens demoBridge.transactOpts 2 (-1) "tx1")).1.2 ∧
    (demoBridge.TransferFunds demoBinding 77 2 (some (-1))).1 =
      (BoundCall.run demoBridge.client demoBridge.transactOpts
        (demoTransactor.Transfer demoBridge.transactOpts 2 (-1))).1.2 :=
  ⟨by decide, rfl,
   ((negative_amount_reaches_contract failingBinding demoBridge 77 2 (-1) "tx1" (by decide)).1
      "no contract code at given address" rfl).1,
   rfl,
   ((negative_amount_reaches_contract demoBinding demoBridge 77 2 (-1) "tx1" (by decide)).2
      demoTransactor rfl).1,
   ((negative_amount_reaches_contract demoBinding demoBridge 77 2 (-1) "tx1" (by decide)).2
      demoTransactor rfl).2.2.1⟩

/-- C8 (counterexample): on `demoBridge`, `TransferFunds` with amount 0 returns the nil
error and its trace holds the `Transfer` call with amount 0 and the submission of
the signed transaction. -/
theorem zero_transfer_not_rejected :
    demoBridge.TransferFunds demoBinding 77 2 (some 0) =
      (none,
        [Call.NewTTFT20Transactor 77, Call.Transfer 1 2 0,
          Call.SignerFn .HomesteadSigner 1 { raw := [2, 0] },
          Call.SignTx { Address := 1, URL := "keystore://first" } { raw := [2, 0] } 4,
          Call.SendTransaction { raw := [4, 2, 0] }]) :=
  rfl

/-- C8 (amended): `TransferFunds` with amount zero is not refused. When the transactor
cannot be created it returns that creation error after that single call; when it is
created, the `Transfer` call with amount 0 is made right after the creation and the
operation returns the error of that call (nil when it succeeds). For every non-nil
amount, zero and negative ones included, the `Transfer` call is made exactly when
the transactor could be created. -/
theorem zero_transfer_reaches_contract (NewT : TransactorBinding) (op : ethBridge)
    (contractAddress recipient : Address) :
    (∀ err, NewT contractAddress op.client = .error err →
      op.TransferFunds NewT contractAddress recipient (some 0) =
        (some err, [Call.NewTTFT20Transactor contractAddress])) ∧
    (∀ tr, NewT contractAddress op.client = .ok tr →
      (op.TransferFunds NewT contractAddress recipient (some 0)).1 =
        (BoundCall.run op.client op.transactOpts
          (tr.Transfer op.transactOpts recipient 0)).1.2 ∧
      (op.TransferFunds NewT contractAddress recipient (some 0)).2 =
        Call.NewTTFT20Transactor contractAddress ::
          Call.Transfer op.account.Address recipient 0 ::
          (BoundCall.run op.client op.transactOpts
            (tr.Transfer op.transactOpts recipient 0)).2) ∧
    (∀ amount : Int,
      Call.Transfer op.account.Address recipient amount ∈
          (op.TransferFunds NewT contractAddress recipient (some amount)).2 ↔
        ∃ tr, NewT contractAddress op.client = .ok tr) := by
  refine ⟨?_, ?_, ?_⟩
  · intro err herr
    rw [TransferFunds_some, herr]
  · intro tr htr
    rw [TransferFunds_some, htr]
    exact ⟨rfl, rfl⟩
  · intro amount
    rw [TransferFunds_some]
    cases hb : NewT contractAddress op.client with
    | error err => simp
    | ok tr => simp

/-- Witness for C8 (amended) on `demoBridge`, with a failing and with a succeeding
binding. -/
theorem zero_transfer_reaches_contract_witness :
    failingBinding 77 demoBridge.client = .error "no contract code at given address" ∧
    demoBridge.TransferFunds failingBinding 77 2 (some 0) =
      (some "no contract code at given address", [Call.NewTTFT20Transactor 77]) ∧
    demoBinding 77 demoBridge.client = .ok demoTransactor ∧
    (demoBridge.TransferFunds demoBinding 77 2 (some 0)).1 =
      (BoundCall.run demoBridge.client demoBridge.transactOpts
        (demoTransactor.Transfer demoBridge.transactOpts 2 0)).1.2 ∧
    Call.Transfer demoBridge.account.Address 2 0 ∈
      (demoBridge.TransferFunds demoBinding 77 2 (some 0)).2 ∧
    Call.Transfer demoBridge.account.Address 2 (-3) ∈
      (demoBridge.TransferFunds demoBinding 77 2 (some (-3))).2 :=
  ⟨rfl,
   (zero_transfer_reaches_contract failingBinding demoBridge 77 2).1
     "no contract code at given address" rfl,
   rfl,
   ((zero_transfer_reaches_contract demoBinding demoBridge 77 2).2.1 demoTransactor rfl).1,
   ((zero_transfer_reaches_contract demoBinding demoBridge 77 2).2.2 0).2
     ⟨demoTransactor, rfl⟩,
   ((zero_transfer_reaches_contract demoBinding demoBridge 77 2).2.2 (-3)).2
     ⟨demoTransactor, rfl⟩⟩

/-- C9 (counterexample): on `demoBridge`, `Mint` with the empty transaction identifier
returns the nil error and its trace holds the `MintTokens` call with the empty
identifier and the submission of the signed transaction. -/
theorem empty_txid_not_rejected :
    demoBridge.Mint demoBinding 77 2 (some 5) "" =
      (none,
        [Call.NewTTFT20Transactor 77, Call.MintTokens 1 2 5 "",
          Call.SignerFn .HomesteadSigner 1 { raw := [2, 5, 0] },
          Call.SignTx { Address := 1, URL := "keystore://first" } { raw := [2, 5, 0] } 4,
          Call.SendTransaction { raw := [4, 2, 5, 0] }]) :=
  rfl

/-- C9 (amended): `Mint` does not look at the transaction identifier. With an empty
identifier and a non-nil amount it returns the creation error when the transactor
cannot be created; when it is created, `MintTokens` is called with the empty
identifier right after the creation and `Mint` returns the error of that call (nil
when it succeeds). -/
theorem empty_txid_reaches_contract (NewT : TransactorBinding) (op : ethBridge)
    (contractAddress receiver : Address) (amount : Int) :
    (∀ err, NewT contractAddress op.client = .error err →
      op.Mint NewT contractAddress receiver (some amount) "" =
        (some err, [Call.NewTTFT20Transactor contractAddress])) ∧
    (∀ tr, NewT contractAddress op.client = .ok tr →
      (op.Mint NewT contractAddress receiver (some amount) "").1 =
        (BoundCall.run op.client op.transactOpts
          (tr.MintTokens op.transactOpts receiver amount "")).1.2 ∧
      (op.Mint NewT contractAddress receiver (some amount) "").2 =
        Call.NewTTFT20Transactor contractAddress ::
          Call.MintTokens op.account.Address receiver amount "" ::
          (BoundCall.run op.client op.transactOpts
            (tr.MintTokens op.transactOpts receiver amount "")).2) := by
  constructor
  · intro err herr
    rw [Mint_some, herr]
  · intro tr htr
    rw [Mint_some, htr]
    exact ⟨rfl, rfl⟩

/-- Witness for C9 (amended) on `demoBridge`, with a failing and with a succeeding
binding. -/
theorem empty_txid_reaches_contract_witness :
    failingBinding 77 demoBridge.client = .error "no contract code at given address" ∧
    demoBridge.Mint failingBinding 77 2 (some 5) "" =
      (some "no contract code at given address", [Call.NewTTFT20Transactor 77]) ∧
    demoBinding 77 demoBridge.client = .ok demoTransactor ∧
    (demoBridge.Mint demoBinding 77 2 (some 5) "").1 =
      (BoundCall.run demoBridge.client demoBridge.transactOpts
        (demoTransactor.MintTokens demoBridge.transactOpts 2 5 "")).1.2 :=
  ⟨rfl,
   (empty_txid_reaches_contract failingBinding demoBridge 77 2 5).1
     "no contract code at given address" rfl,
   rfl,
   ((empty_txid_reaches_contract demoBinding demoBridge 77 2 5).2 demoTransactor rfl).1⟩

/-! ## The head loop -/

theorem LoopState.run_append (s : LoopState) (a b : List LoopEvent) :
    s.run (a ++ b) = (((s.run a).1.run b).1, (s.run a).2 ++ ((s.run a).1.run b).2) := by
  induction a generalizing s with
  | nil => simp [LoopState.run]
  | cons e es ih => simp [LoopState.run, ih, List.append_assoc]

theorem refreshArgs_append (a b : List LoopObs) :
    refreshArgs (a ++ b) = refreshArgs a ++ refreshArgs b := by
  induction a with
  | nil => simp [refreshArgs]
  | cons o os ih => cases o <;> simp [refreshArgs, ih]

theorem refreshArgs_map_InfoIgnoring (heads : List Header) :
    refreshArgs (heads.map LoopObs.InfoIgnoring) = [] := by
  induction heads with
  | nil => rfl
  | cons h hs ih => simpa [refreshArgs] using ih

theorem inFlightAfter_append (cur : Option Header) (a b : List LoopObs) :
    inFlightAfter cur (a ++ b) = (inFlightAfter cur a).bind fun c => inFlightAfter c b := by
  induction a generalizing cur with
  | nil => simp [inFlightAfter]
  | cons o os ih =>
    cases o <;> cases cur <;> simp [inFlightAfter, ih]
    split <;> simp

theorem LoopState.step_inFlight (s : LoopState) (e : LoopEvent) :
    inFlightAfter s.worker.inFlight (s.step e).2 = some (s.step e).1.worker.inFlight := by
  cases e with
  | newHead head =>
    cases hw : s.worker <;> simp [LoopState.step, hw, inFlightAfter, Worker.inFlight]
  | workerStep =>
    cases hw : s.worker with
    | starting => simp [LoopState.step, hw, inFlightAfter, Worker.inFlight]
    | receiving => simp [LoopState.step, hw, inFlightAfter, Worker.inFlight]
    | refreshing head => simp [LoopState.step, hw, inFlightAfter, Worker.inFlight]
    | logging head err =>
      cases err <;> simp [LoopState.step, hw, inFlightAfter, Worker.inFlight]

theorem LoopState.run_inFlight (s : LoopState) (events : List LoopEvent) :
    inFlightAfter s.worker.inFlight (s.run events).2 = some (s.run events).1.worker.inFlight := by
  induction events generalizing s with
  | nil => simp [LoopState.run, inFlightAfter]
  | cons e es ih =>
    simp only [LoopState.run]
    rw [inFlightAfter_append, LoopState.step_inFlight]
    simpa using ih (s.step e).1

theorem LoopState.run_newHeads_refreshing (s : LoopState) (h0 : Header) (heads : List Header)
    (hw : s.worker = .refreshing h0) :
    s.run (heads.map LoopEvent.newHead) = (s, heads.map LoopObs.InfoIgnoring) := by
  induction heads with
  | nil => rfl
  | cons h hs ih => simp [LoopState.run, LoopState.step, hw, ih]

theorem LoopState.step_refreshArgs_delivered (s : LoopState) (e : LoopEvent) (h : Header)
    (hmem : h ∈ refreshArgs (s.step e).2) : h ∈ deliveredHeads [e] := by
  cases e with
  | newHead head =>
    cases hw : s.worker with
    | starting => simp [LoopState.step, hw, refreshArgs] at hmem
    | receiving => simpa [LoopState.step, hw, refreshArgs, deliveredHeads] using hmem
    | refreshing cur => simp [LoopState.step, hw, refreshArgs] at hmem
    | logging cur err => simp [LoopState.step, hw, refreshArgs] at hmem
  | workerStep =>
    cases hw : s.worker with
    | starting => simp [LoopState.step, hw, refreshArgs] at hmem
    | receiving => simp [LoopState.step, hw, refreshArgs] at hmem
    | refreshing head => simp [LoopState.step, hw, refreshArgs] at hmem
    | logging head err => cases err <;> simp [LoopState.step, hw, refreshArgs] at hmem

theorem deliveredHeads_cons (e : LoopEvent) (es : List LoopEvent) :
    deliveredHeads (e :: es) = deliveredHeads [e] ++ deliveredHeads es := by
  cases e <;> simp [deliveredHeads]

theorem LoopState.run_refreshArgs_delivered (s : LoopState) (events : List LoopEvent)
    (h : Header) (hmem : h ∈ refreshArgs (s.run events).2) : h ∈ deliveredHeads events := by
  induction events generalizing s with
  | nil => simp [LoopState.run, refreshArgs] at hmem
  | cons e es ih =>
    simp only [LoopState.run, refreshArgs_append, List.mem_append] at hmem
    rw [deliveredHeads_cons, List.mem_append]
    rcases hmem with h1 | h2
    · exact Or.inl (LoopState.step_refreshArgs_delivered s e h h1)
    · exact Or.inr (ih _ h2)

theorem refresh_some_head (op : ethBridge) (head : Header) :
    (op.refresh (some head)).2 = op ∨ (op.refresh (some head)).2.head = some head := by
  unfold ethBridge.refresh
  cases hp : op.client.SuggestGasPrice with
  | error err => simp
  | ok price =>
    cases hb : op.client.BalanceAt op.account.Address head.Number with
    | error err => simp [hb]
    | ok balance => simp [hb]

theorem refresh_error_keeps (op : ethBridge) (head : Option Header) (err : Error)
    (h : (op.refresh head).1 = some err) : (op.refresh head).2 = op := by
  unfold ethBridge.refresh at h ⊢
  cases head with
  | none =>
    cases hh : op.client.HeaderByNumber none with
    | error e => simp
    | ok hd =>
      cases hp : op.client.SuggestGasPrice with
      | error e => simp
      | ok price =>
        cases hb : op.client.BalanceAt op.account.Address hd.Number with
        | error e => simp [hb]
        | ok balance => simp [hh, hp, hb] at h
  | some hd =>
    cases hp : op.client.SuggestGasPrice with
    | error e => simp
    | ok price =>
      cases hb : op.client.BalanceAt op.account.Address hd.Number with
      | error e => simp [hb]
      | ok balance => simp [hp, hb] at h

theorem LoopState.step_head (s : LoopState) (e : LoopEvent) :
    (s.step e).1.op.head = s.op.head ∨
      ∃ h, s.worker.inFlight = some h ∧ (s.step e).1.op.head = some h := by
  cases e with
  | newHead head => cases hw : s.worker <;> simp [LoopState.step, hw]
  | workerStep =>
    cases hw : s.worker with
    | starting => simp [LoopState.step, hw]
    | receiving => simp [LoopState.step, hw]
    | refreshing head =>
      rcases refresh_some_head s.op head with h1 | h2
      · left
        simp [LoopState.step, hw, h1]
      · right
        exact ⟨head, by simp [Worker.inFlight], by simpa [LoopState.step, hw] using h2⟩
    | logging head err => simp [LoopState.step, hw]

theorem LoopState.step_inFlight_origin (s : LoopState) (e : LoopEvent) (h : Header)
    (hin : (s.step e).1.worker.inFlight = some h) :
    s.worker.inFlight = some h ∨ h ∈ refreshArgs (s.step e).2 := by
  cases e with
  | newHead head =>
    cases hw : s.worker with
    | starting => simp [LoopState.step, hw, Worker.inFlight] at hin
    | receiving =>
      right
      simp [LoopState.step, hw, Worker.inFlight] at hin
      simp [LoopState.step, hw, refreshArgs, hin]
    | refreshing cur =>
      left
      simpa [LoopState.step, hw] using hin
    | logging cur err => simp [LoopState.step, hw, Worker.inFlight] at hin
  | workerStep =>
    cases hw : s.worker <;> simp [LoopState.step, hw, Worker.inFlight] at hin

theorem LoopState.run_cached_head (s : LoopState) (events : List LoopEvent) :
    (s.run events).1.op.head = s.op.head ∨
      ∃ h, (s.worker.inFlight = some h ∨ h ∈ refreshArgs (s.run events).2) ∧
        (s.run events).1.op.head = some h := by
  induction events generalizing s with
  | nil => left; rfl
  | cons e es ih =>
    simp only [LoopState.run, refreshArgs_append, List.mem_append]
    rcases ih (s.step e).1 with h1 | ⟨h, hsrc, hh⟩
    · rcases LoopState.step_head s e with h2 | ⟨h, hw, hh⟩
      · left; rw [h1, h2]
      · right; exact ⟨h, Or.inl hw, by rw [h1, hh]⟩
    · right
      refine ⟨h, ?_, hh⟩
      rcases hsrc with hin | hmem
      · rcases LoopState.step_inFlight_origin s e h hin with h3 | h4
        · exact Or.inl h3
        · exact Or.inr (Or.inl h4)
      · exact Or.inr (Or.inr hmem)

theorem deliveredHeads_append (a b : List LoopEvent) :
    deliveredHeads (a ++ b) = deliveredHeads a ++ deliveredHeads b := by
  induction a with
  | nil => simp [deliveredHeads]
  | cons e es ih => cases e <;> simp [deliveredHeads, ih]

theorem deliveredHeads_replicate_workerStep (n : Nat) :
    deliveredHeads (List.replicate n LoopEvent.workerStep) = [] := by
  induction n with
  | zero => rfl
  | succ n ih => simpa [List.replicate_succ, deliveredHeads] using ih

theorem LoopState.step_refreshArgs_length (s : LoopState) (e : LoopEvent) :
    (refreshArgs (s.step e).2).length ≤ (deliveredHeads [e]).length := by
  cases e with
  | newHead head =>
    cases hw : s.worker <;> simp [LoopState.step, hw, refreshArgs, deliveredHeads]
  | workerStep =>
    cases hw : s.worker with
    | starting => simp [LoopState.step, hw, refreshArgs]
    | receiving => simp [LoopState.step, hw, refreshArgs]
    | refreshing head => simp [LoopState.step, hw, refreshArgs]
    | logging head err => cases err <;> simp [LoopState.step, hw, refreshArgs]

theorem LoopState.run_refreshArgs_length (s : LoopState) (events : List LoopEvent) :
    (refreshArgs (s.run events).2).length ≤ (deliveredHeads events).length := by
  induction events generalizing s with
  | nil => simp [LoopState.run, refreshArgs]
  | cons e es ih =>
    simp only [LoopState.run, refreshArgs_append, List.length_append]
    rw [deliveredHeads_cons, List.length_append]
    exact Nat.add_le_add (LoopState.step_refreshArgs_length s e) (ih _)

theorem LoopState.run_two_heads (s : LoopState) (a b : Header) :
    (refreshArgs (s.run [LoopEvent.newHead a, LoopEvent.newHead b]).2).length ≤ 1 := by
  cases hw : s.worker <;> simp [LoopState.run, LoopState.step, hw, refreshArgs]

theorem LoopState.run_head_steps_head (s : LoopState) (a b : Header) (j : Nat) (hj : j ≤ 1) :
    (refreshArgs (s.run (LoopEvent.newHead a ::
      (List.replicate j LoopEvent.workerStep ++ [LoopEvent.newHead b]))).2).length ≤ 1 := by
  rcases Nat.le_one_iff_eq_zero_or_eq_one.mp hj with rfl | rfl
  · exact LoopState.run_two_heads s a b
  · cases hw : s.worker with
    | starting => simp [LoopState.run, LoopState.step, hw, refreshArgs]
    | receiving => simp [LoopState.run, LoopState.step, hw, refreshArgs]
    | refreshing cur => simp [LoopState.run, LoopState.step, hw, refreshArgs]
    | logging cur err => cases err <;> simp [LoopState.run, LoopState.step, hw, refreshArgs]

theorem LoopState.run_newHeads_busy (s : LoopState) (heads : List Header)
    (hw : s.worker ≠ .receiving) :
    s.run (heads.map LoopEvent.newHead) = (s, heads.map LoopObs.InfoIgnoring) := by
  induction heads with
  | nil => rfl
  | cons h hs ih =>
    cases hs' : s.worker with
    | receiving => exact absurd hs' hw
    | starting => simp [LoopState.run, LoopState.step, hs', ih]
    | refreshing cur => simp [LoopState.run, LoopState.step, hs', ih]
    | logging cur err => simp [LoopState.run, LoopState.step, hs', ih]

theorem LoopState.run_two_workerSteps (s : LoopState) :
    (s.run [LoopEvent.workerStep, LoopEvent.workerStep]).1.worker = .receiving := by
  cases hw : s.worker <;> simp [LoopState.run, LoopState.step, hw]

theorem LoopState.run_after_failed_refresh (s : LoopState) (hi : Header) (err : Error)
    (hw : s.worker = .refreshing hi) (hfail : (s.op.refresh (some hi)).1 = some err)
    (late : List Header) (rest : List LoopEvent) :
    s.run (LoopEvent.workerStep :: (late.map LoopEvent.newHead ++
        (LoopEvent.workerStep :: rest))) =
      ((LoopState.run { op := s.op, worker := .receiving } rest).1,
        LoopObs.RefreshReturn hi (some err) :: (late.map LoopObs.InfoIgnoring ++
          (LoopObs.WarnFailed hi err :: LoopObs.InfoUpdated hi ::
            (LoopState.run { op := s.op, worker := .receiving } rest).2))) := by
  have hkeep := refresh_error_keeps s.op (some hi) err hfail
  have h1 : s.step LoopEvent.workerStep =
      ({ op := s.op, worker := .logging hi (some err) },
        [LoopObs.RefreshReturn hi (some err)]) := by
    simp [LoopState.step, hw, hfail, hkeep]
  have h2 : (LoopState.mk s.op (.logging hi (some err))).run
      (late.map LoopEvent.newHead) =
      (LoopState.mk s.op (.logging hi (some err)), late.map LoopObs.InfoIgnoring) :=
    LoopState.run_newHeads_busy _ late (by simp)
  rw [LoopState.run, h1]
  simp only []
  rw [LoopState.run_append, h2]
  simp [LoopState.run, LoopState.step]

/-- C11: in the head loop, with a head counted as arriving when the main loop's
iteration for it runs, (1) the calls of `refresh` never overlap: scanning the
observations of any schedule, every call happens when no refresh is in flight and
every return closes the one in flight; (2) heads that arrive while the refresh of
`h0` is in flight are all dropped, none of them is ever passed to `refresh`, and the
rest of the execution is the one that would have happened without them; (3) every
head passed to `refresh` was delivered by the head subscription, and the cached head
is either the initial one or a head that was passed to `refresh`. -/
theorem loop_refresh_exclusive_and_coalescing (op : ethBridge) (schedule : List LoopEvent) :
    inFlightAfter none (op.loop schedule).2 = some (op.loop schedule).1.worker.inFlight ∧
    (∀ (s : LoopState) (h0 : Header) (heads : List Header) (rest : List LoopEvent),
      s.worker = .refreshing h0 →
      s.run (heads.map LoopEvent.newHead ++ rest) =
        ((s.run rest).1, heads.map LoopObs.InfoIgnoring ++ (s.run rest).2) ∧
      refreshArgs (s.run (heads.map LoopEvent.newHead ++ rest)).2 =
        refreshArgs (s.run rest).2) ∧
    (∀ h ∈ refreshArgs (op.loop schedule).2, h ∈ deliveredHeads schedule) ∧
    ((op.loop schedule).1.op.head = op.head ∨
      ∃ h ∈ refreshArgs (op.loop schedule).2, (op.loop schedule).1.op.head = some h) := by
  refine ⟨?_, ?_, ?_, ?_⟩
  · exact LoopState.run_inFlight { op := op, worker := .starting } schedule
  · intro s h0 heads rest hw
    have hrun : s.run (heads.map LoopEvent.newHead ++ rest) =
        ((s.run rest).1, heads.map LoopObs.InfoIgnoring ++ (s.run rest).2) := by
      rw [LoopState.run_append, LoopState.run_newHeads_refreshing s h0 heads hw]
    refine ⟨hrun, ?_⟩
    rw [hrun, refreshArgs_append, refreshArgs_map_InfoIgnoring]
    rfl
  · intro h hmem
    exact LoopState.run_refreshArgs_delivered { op := op, worker := .starting } schedule h hmem
  · rcases LoopState.run_cached_head { op := op, worker := .starting } schedule with h1 | ⟨h, hsrc, hh⟩
    · exact Or.inl h1
    · rcases hsrc with hin | hmem
      · simp [Worker.inFlight] at hin
      · exact Or.inr ⟨h, hmem, hh⟩

/-- Witness for C11: while `demoBridge` refreshes head 100, heads 101 and 102 arrive
and are dropped; the refresh then returns, the worker goes back to its receive and
head 102 arrives again. Only that last delivery is passed to `refresh`. -/
theorem loop_refresh_exclusive_and_coalescing_witness :
    (LoopState.mk demoBridge (.refreshing head100)).worker = .refreshing head100 ∧
    (LoopState.mk demoBridge (.refreshing head100)).run
        ([head101, head102].map LoopEvent.newHead ++
          [.workerStep, .workerStep, .newHead head102]) =
      (((LoopState.mk demoBridge (.refreshing head100)).run
          [.workerStep, .workerStep, .newHead head102]).1,
        [head101, head102].map LoopObs.InfoIgnoring ++
          ((LoopState.mk demoBridge (.refreshing head100)).run
            [.workerStep, .workerStep, .newHead head102]).2) ∧
    refreshArgs ((LoopState.mk demoBridge (.refreshing head100)).run
        ([head101, head102].map LoopEvent.newHead ++
          [.workerStep, .workerStep, .newHead head102])).2 =
      [head102] :=
  ⟨rfl,
   ((loop_refresh_exclusive_and_coalescing demoBridge []).2.1
      (LoopState.mk demoBridge (.refreshing head100)) head100 [head101, head102]
      [.workerStep, .workerStep, .newHead head102] rfl).1,
   ((loop_refresh_exclusive_and_coalescing demoBridge []).2.1
      (LoopState.mk demoBridge (.refreshing head100)) head100 [head101, head102]
      [.workerStep, .workerStep, .newHead head102] rfl).2.trans rfl⟩

/-- C12 (counterexample): on `demoBridge`, with the worker waiting for a head, heads
100, 101 and 102 all arrive before the first refresh returns; the sequence of
`refresh` arguments is `[100]`, not `[102]`. -/
theorem three_heads_first_is_refreshed :
    refreshArgs (demoBridge.loop
      [.workerStep, .newHead head100, .newHead head101, .newHead head102, .workerStep,
        .workerStep]).2
        = [head100] ∧
    [head100] ≠ [head102] :=
  ⟨rfl, by decide⟩

/-- C12 (amended): heads `a`, `b`, `c` (100, 101, 102) are delivered in that order to the
loop whose worker waits for a head. If all three arrive before the refresh of `a`
returns, the `refresh` arguments are exactly `[a]`. If `b` arrives before that
refresh returns and `c` arrives after it returned and the worker is back in its
receive, they are `[a, c]`. If `c` arrives after the refresh returned but while the
worker is still at its log lines, they are `[a]` again. And whatever the number of
worker steps around the deliveries, when fewer than two worker steps separate `a`
from `b`, or `b` from `c`, at most two refreshes are performed. -/
theorem three_heads_refresh_args (op : ethBridge) (a b c : Header) :
    refreshArgs (op.loop
      [.workerStep, .newHead a, .newHead b, .newHead c, .workerStep, .workerStep]).2
        = [a] ∧
    refreshArgs (op.loop
      [.workerStep, .newHead a, .newHead b, .workerStep, .workerStep, .newHead c,
        .workerStep, .workerStep]).2 = [a, c] ∧
    refreshArgs (op.loop
      [.workerStep, .newHead a, .newHead b, .workerStep, .newHead c, .workerStep,
        .workerStep]).2 = [a] ∧
    (∀ i j k l : Nat, j ≤ 1 ∨ k ≤ 1 →
      (refreshArgs (op.loop
        (List.replicate i LoopEvent.workerStep ++ (LoopEvent.newHead a ::
          (List.replicate j LoopEvent.workerStep ++ (LoopEvent.newHead b ::
            (List.replicate k LoopEvent.workerStep ++ (LoopEvent.newHead c ::
              List.replicate l LoopEvent.workerStep))))))).2).length ≤ 2) := by
  refine ⟨?_, ?_, ?_, ?_⟩
  · cases hr : (op.refresh (some a)).1 <;>
      simp [ethBridge.loop, LoopState.run, LoopState.step, refreshArgs, hr]
  · cases hr : (op.refresh (some a)).1 <;>
      cases hr2 : ((op.refresh (some a)).2.refresh (some c)).1 <;>
        simp [ethBridge.loop, LoopState.run, LoopState.step, refreshArgs, hr, hr2]
  · cases hr : (op.refresh (some a)).1 <;>
      simp [ethBridge.loop, LoopState.run, LoopState.step, refreshArgs, hr]
  · intro i j k l hjk
    unfold ethBridge.loop
    rcases hjk with hj | hk
    · have hsplit : List.replicate i LoopEvent.workerStep ++ (LoopEvent.newHead a ::
          (List.replicate j LoopEvent.workerStep ++ (LoopEvent.newHead b ::
            (List.replicate k LoopEvent.workerStep ++ (LoopEvent.newHead c ::
              List.replicate l LoopEvent.workerStep))))) =
          List.replicate i LoopEvent.workerStep ++
            ((LoopEvent.newHead a ::
                (List.replicate j LoopEvent.workerStep ++ [LoopEvent.newHead b])) ++
              (List.replicate k LoopEvent.workerStep ++ (LoopEvent.newHead c ::
                List.replicate l LoopEvent.workerStep))) := by simp
      rw [hsplit, LoopState.run_append, LoopState.run_append]
      simp only [refreshArgs_append, List.length_append]
      have h1 := LoopState.run_refreshArgs_length { op := op, worker := .starting }
        (List.replicate i LoopEvent.workerStep)
      have h2 := LoopState.run_head_steps_head
        (LoopState.run { op := op, worker := .starting }
          (List.replicate i LoopEvent.workerStep)).1 a b j hj
      have h3 := LoopState.run_refreshArgs_length
        ((LoopState.run { op := op, worker := .starting }
          (List.replicate i LoopEvent.workerStep)).1.run
            (LoopEvent.newHead a ::
              (List.replicate j LoopEvent.workerStep ++ [LoopEvent.newHead b]))).1
        (List.replicate k LoopEvent.workerStep ++ (LoopEvent.newHead c ::
          List.replicate l LoopEvent.workerStep))
      simp only [deliveredHeads_append, deliveredHeads_replicate_workerStep, deliveredHeads,
        List.length_nil, List.length_cons, List.nil_append, List.append_nil] at h1 h3
      omega
    · have hsplit : List.replicate i LoopEvent.workerStep ++ (LoopEvent.newHead a ::
          (List.replicate j LoopEvent.workerStep ++ (LoopEvent.newHead b ::
            (List.replicate k LoopEvent.workerStep ++ (LoopEvent.newHead c ::
              List.replicate l LoopEvent.workerStep))))) =
          (List.replicate i LoopEvent.workerStep ++ (LoopEvent.newHead a ::
            List.replicate j LoopEvent.workerStep)) ++
            ((LoopEvent.newHead b ::
                (List.replicate k LoopEvent.workerStep ++ [LoopEvent.newHead c])) ++
              List.replicate l LoopEvent.workerStep) := by simp
      rw [hsplit, LoopState.run_append, LoopState.run_append]
      simp only [refreshArgs_append, List.length_append]
      have h1 := LoopState.run_refreshArgs_length { op := op, worker := .starting }
        (List.replicate i LoopEvent.workerStep ++ (LoopEvent.newHead a ::
          List.replicate j LoopEvent.workerStep))
      have h2 := LoopState.run_head_steps_head
        (LoopState.run { op := op, worker := .starting }
          (List.replicate i LoopEvent.workerStep ++ (LoopEvent.newHead a ::
            List.replicate j LoopEvent.workerStep))).1 b c k hk
      have h3 := LoopState.run_refreshArgs_length
        ((LoopState.run { op := op, worker := .starting }
          (List.replicate i LoopEvent.workerStep ++ (LoopEvent.newHead a ::
            List.replicate j LoopEvent.workerStep))).1.run
            (LoopEvent.newHead b ::
              (List.replicate k LoopEvent.workerStep ++ [LoopEvent.newHead c]))).1
        (List.replicate l LoopEvent.workerStep)
      simp only [deliveredHeads_append, deliveredHeads_replicate_workerStep, deliveredHeads,
        List.length_nil, List.length_cons, List.nil_append, List.append_nil] at h1 h3
      omega

/-- Witness for C12 (amended) on `demoBridge` with heads 100, 101, 102: one worker
step separates 100 from 101, so the refresh of 100 has returned but the worker is
still at its log lines when 101 arrives. -/
theorem three_heads_refresh_args_witness :
    ((1 : Nat) ≤ 1 ∨ (2 : Nat) ≤ 1) ∧
    (refreshArgs (demoBridge.loop
      (List.replicate 1 LoopEvent.workerStep ++ (LoopEvent.newHead head100 ::
        (List.replicate 1 LoopEvent.workerStep ++ (LoopEvent.newHead head101 ::
          (List.replicate 2 LoopEvent.workerStep ++ (LoopEvent.newHead head102 ::
            List.replicate 2 LoopEvent.workerStep))))))).2).length ≤ 2 :=
  ⟨Or.inl (Nat.le_refl 1),
   (three_heads_refresh_args demoBridge head100 head101 head102).2.2.2 1 1 2 2
     (Or.inl (Nat.le_refl 1))⟩

/-- C14: whenever `loop`, after a schedule `pre`, has the refresh of an accepted head
`hi` in flight and that refresh fails with `err`, the loop goes on. The failure is
returned to the worker only, which writes its two log lines and goes back to its
receive with the bridge unchanged (heads delivered meanwhile are dropped); from
there the execution is the one of a waiting worker, whatever is scheduled next, and
in particular a head `hj` delivered then is passed to `refresh`. Moreover, after any
schedule at all, two worker steps bring the worker back to its receive. -/
theorem loop_survives_refresh_failure (op : ethBridge) (pre : List LoopEvent) (hi : Header)
    (err : Error) (hw : (op.loop pre).1.worker = .refreshing hi)
    (hfail : ((op.loop pre).1.op.refresh (some hi)).1 = some err) :
    (∀ (late : List Header) (rest : List LoopEvent),
      op.loop (pre ++ (LoopEvent.workerStep :: (late.map LoopEvent.newHead ++
          (LoopEvent.workerStep :: rest)))) =
        ((LoopState.run { op := (op.loop pre).1.op, worker := .receiving } rest).1,
          (op.loop pre).2 ++ (LoopObs.RefreshReturn hi (some err) ::
            (late.map LoopObs.InfoIgnoring ++
              (LoopObs.WarnFailed hi err :: LoopObs.InfoUpdated hi ::
                (LoopState.run { op := (op.loop pre).1.op, worker := .receiving }
                  rest).2))))) ∧
    (∀ (late : List Header) (hj : Header),
      op.loop (pre ++ (LoopEvent.workerStep :: (late.map LoopEvent.newHead ++
          [LoopEvent.workerStep, LoopEvent.newHead hj]))) =
        ({ op := (op.loop pre).1.op, worker := .refreshing hj },
          (op.loop pre).2 ++ (LoopObs.RefreshReturn hi (some err) ::
            (late.map LoopObs.InfoIgnoring ++
              [LoopObs.WarnFailed hi err, LoopObs.InfoUpdated hi,
                LoopObs.RefreshCall hj])))) ∧
    (∀ schedule : List LoopEvent,
      (LoopState.run (op.loop schedule).1
        [LoopEvent.workerStep, LoopEvent.workerStep]).1.worker = .receiving) := by
  have hmain : ∀ (late : List Header) (rest : List LoopEvent),
      op.loop (pre ++ (LoopEvent.workerStep :: (late.map LoopEvent.newHead ++
          (LoopEvent.workerStep :: rest)))) =
        ((LoopState.run { op := (op.loop pre).1.op, worker := .receiving } rest).1,
          (op.loop pre).2 ++ (LoopObs.RefreshReturn hi (some err) ::
            (late.map LoopObs.InfoIgnoring ++
              (LoopObs.WarnFailed hi err :: LoopObs.InfoUpdated hi ::
                (LoopState.run { op := (op.loop pre).1.op, worker := .receiving }
                  rest).2)))) := by
    intro late rest
    have hrun := LoopState.run_after_failed_refresh (op.loop pre).1 hi err hw hfail late rest
    unfold ethBridge.loop at hrun ⊢
    rw [LoopState.run_append, hrun]
  refine ⟨hmain, ?_, fun schedule => LoopState.run_two_workerSteps _⟩
  intro late hj
  have h := hmain late [LoopEvent.newHead hj]
  rw [h]
  simp [LoopState.run, LoopState.step]

/-- Witness for C14 on `staleBridge`, whose balance query always fails: `loop` accepts
head 100, its refresh fails and is logged while head 101 is dropped, and head 102,
delivered once the worker is back in its receive, is passed to `refresh`. -/
theorem loop_survives_refresh_failure_witness :
    (staleBridge.loop [.workerStep, .newHead head100]).1.worker = .refreshing head100 ∧
    ((staleBridge.loop [.workerStep, .newHead head100]).1.op.refresh (some head100)).1 =
      some "balance unavailable" ∧
    staleBridge.loop ([.workerStep, .newHead head100] ++
        (LoopEvent.workerStep :: ([head101].map LoopEvent.newHead ++
          [LoopEvent.workerStep, LoopEvent.newHead head102]))) =
      ({ op := staleBridge, worker := .refreshing head102 },
        [LoopObs.RefreshCall head100] ++
          (LoopObs.RefreshReturn head100 (some "balance unavailable") ::
            ([head101].map LoopObs.InfoIgnoring ++
              [LoopObs.WarnFailed head100 "balance unavailable",
                LoopObs.InfoUpdated head100, LoopObs.RefreshCall head102]))) :=
  ⟨rfl, rfl,
   (loop_survives_refresh_failure staleBridge [.workerStep, .newHead head100] head100
      "balance unavailable" rfl rfl).2.1 [head101] head102⟩

/-! ## The event watchers -/

theorem watchTransfers_events_then (events : List TTFT20Transfer)
    (tail : Subscription TTFT20Transfer) :
    watchTransfers (events.map Received.event ++ tail) =
      ((watchTransfers tail).1, events.map TTFT20Transfer.info ++ (watchTransfers tail).2) := by
  induction events with
  | nil => rfl
  | cons ev evs ih => simp [watchTransfers, ih, TTFT20Transfer.info]

theorem watchMint_events_then (events : List TTFT20Mint) (tail : Subscription TTFT20Mint) :
    watchMint (events.map Received.event ++ tail) =
      ((watchMint tail).1, events.map TTFT20Mint.info ++ (watchMint tail).2) := by
  induction events with
  | nil => rfl
  | cons ev evs ih => simp [watchMint, ih, TTFT20Mint.info]

/-- C13: once the subscription is established, a watcher that receives the events
`events` and then the value `e` from the subscription's error channel logs every
event in arrival order, calls `Unsubscribe` and returns exactly `e`, whatever would
have come after; a watcher that has only received events is still blocked in its
`select`, has not returned and has not unsubscribed. This holds for
`SubscribeTransfers` and for `SubscribeMint`. -/
theorem watcher_returns_on_subscription_error (NewF : FiltererBinding) (op : ethBridge)
    (contractAddress : Address) (filter : TTFT20Filterer)
    (hbind : NewF contractAddress op.client = .ok filter) :
    (∀ (events : List TTFT20Transfer) (e : Option Error) rest,
      filter.WatchTransfer = .ok (events.map Received.event ++ Received.subErr e :: rest) →
      op.SubscribeTransfers NewF contractAddress =
        (.returned e, events.map TTFT20Transfer.info ++ [WatchObs.Unsubscribe])) ∧
    (∀ events : List TTFT20Transfer, filter.WatchTransfer = .ok (events.map Received.event) →
      op.SubscribeTransfers NewF contractAddress =
        (.blocked, events.map TTFT20Transfer.info)) ∧
    (∀ (events : List TTFT20Mint) (e : Option Error) rest,
      filter.WatchMint = .ok (events.map Received.event ++ Received.subErr e :: rest) →
      op.SubscribeMint NewF contractAddress =
        (.returned e, events.map TTFT20Mint.info ++ [WatchObs.Unsubscribe])) ∧
    (∀ events : List TTFT20Mint, filter.WatchMint = .ok (events.map Received.event) →
      op.SubscribeMint NewF contractAddress = (.blocked, events.map TTFT20Mint.info)) := by
  refine ⟨?_, ?_, ?_, ?_⟩
  · intro events e rest hsub
    simp [ethBridge.SubscribeTransfers, hbind, hsub, watchTransfers_events_then, watchTransfers]
  · intro events hsub
    have h := watchTransfers_events_then events []
    simp only [List.append_nil] at h
    simp [ethBridge.SubscribeTransfers, hbind, hsub, h, watchTransfers]
  · intro events e rest hsub
    simp [ethBridge.SubscribeMint, hbind, hsub, watchMint_events_then, watchMint]
  · intro events hsub
    have h := watchMint_events_then events []
    simp only [List.append_nil] at h
    simp [ethBridge.SubscribeMint, hbind, hsub, h, watchMint]

/-- Witness for C13 on `demoBridge` with `demoFilterer`: two events are logged, then
the error "connection lost" is returned after `Unsubscribe`. -/
theorem watcher_returns_on_subscription_error_witness :
    demoFiltererBinding 77 demoBridge.client = .ok demoFilterer ∧
    demoBridge.SubscribeTransfers demoFiltererBinding 77 =
      (.returned (some "connection lost"),
        [.InfoTransfer 1 2 (some 5), .InfoTransfer 2 3 (some 7), .Unsubscribe]) ∧
    demoBridge.SubscribeMint demoFiltererBinding 77 =
      (.returned (some "connection lost"),
        [.InfoMint 2 (some 5) "tx1", .InfoMint 3 (some 7) "tx2", .Unsubscribe]) :=
  ⟨rfl,
   (watcher_returns_on_subscription_error demoFiltererBinding demoBridge 77 demoFilterer rfl).1
     [{ From := 1, To := 2, Tokens := some 5 }, { From := 2, To := 3, Tokens := some 7 }]
     (some "connection lost") [.event { From := 3, To := 4, Tokens := some 9 }] rfl,
   (watcher_returns_on_subscription_error demoFiltererBinding demoBridge 77 demoFilterer
     rfl).2.2.1
     [{ Receiver := 2, Tokens := some 5, Txid := "tx1" },
       { Receiver := 3, Tokens := some 7, Txid := "tx2" }]
     (some "connection lost") [.event { Receiver := 4, Tokens := some 9, Txid := "tx3" }] rfl⟩

/-! ## Construction of the bridge -/

theorem addBootnodePeers_eq_filter_map (ParseV4 : String → Option Enode × Option Error)
    (enodes : List DiscNode) :
    addBootnodePeers ParseV4 enodes =
      (enodes.filter fun boot => (ParseV4 boot.String).2.isSome).map
        fun boot => StackCall.AddPeer (ParseV4 boot.String).1 := by
  induction enodes with
  | nil => rfl
  | cons boot rest ih =>
    cases h : (ParseV4 boot.String).2 <;> simp [addBootnodePeers, h, ih]

theorem addBootnodePeers_filter_isAddPeer (ParseV4 : String → Option Enode × Option Error)
    (enodes : List DiscNode) :
    (addBootnodePeers ParseV4 enodes).filter StackCall.isAddPeer =
      addBootnodePeers ParseV4 enodes := by
  induction enodes with
  | nil => rfl
  | cons boot rest ih =>
    cases h : (ParseV4 boot.String).2 <;> simp [addBootnodePeers, h, ih, StackCall.isAddPeer]

theorem newEthBridge_ok (env : NodeEnv) (genesis : Genesis) (port : Int)
    (enodes : List DiscNode) (network : Int) (stats : String) (ks : KeyStore)
    (b : ethBridge) (t : List StackCall)
    (h : newEthBridge env genesis port enodes network stats ks = (.ok b, t)) :
    ks.Accounts.head? = some b.account ∧ b.keystore = ks := by
  unfold newEthBridge at h
  cases h1 : env.New with
  | some err => simp [h1] at h
  | none =>
    cases h2 : env.RegisterLes with
    | some err => simp [h1, h2] at h
    | none =>
      simp only [h1, h2] at h
      split at h
      · simp at h
      · split at h
        · simp at h
        · split at h
          · simp at h
          · split at h
            · simp at h
            · rename_i account rest hacc
              simp only [Prod.mk.injEq, Outcome.ok.injEq] at h
              rw [← h.1]
              simp [hacc]

/-- C18: the bootnode loop of `newEthBridge` calls `AddPeer` once for every bootnode
whose string form fails to parse again with `enode.ParseV4` (with the `old` value of
that failed parse) and never for a bootnode that parses; in `newEthBridge` these are
all the `AddPeer` calls when the node was assembled and started, and there is none
otherwise. -/
theorem bootnode_added_iff_reparse_fails (env : NodeEnv) (genesis : Genesis) (port : Int)
    (enodes : List DiscNode) (network : Int) (stats : String) (ks : KeyStore) :
    addBootnodePeers env.ParseV4 enodes =
      ((enodes.filter fun boot => (env.ParseV4 boot.String).2.isSome).map
        fun boot => StackCall.AddPeer (env.ParseV4 boot.String).1) ∧
    (newEthBridge env genesis port enodes network stats ks).2.filter StackCall.isAddPeer =
      if env.New = none ∧ env.RegisterLes = none ∧ (stats = "" ∨ env.RegisterStats = none) ∧
          env.Start = none then
        addBootnodePeers env.ParseV4 enodes
      else [] := by
  refine ⟨addBootnodePeers_eq_filter_map env.ParseV4 enodes, ?_⟩
  unfold newEthBridge
  cases h1 : env.New with
  | some err => simp [StackCall.isAddPeer]
  | none =>
    cases h2 : env.RegisterLes with
    | some err => simp [StackCall.isAddPeer]
    | none =>
      by_cases hs : stats = ""
      · cases h4 : env.Start with
        | some err => simp [hs, StackCall.isAddPeer]
        | none =>
          cases h5 : env.Attach with
          | error err =>
            simp [hs, StackCall.isAddPeer, List.filter_append,
              addBootnodePeers_filter_isAddPeer]
          | ok client =>
            cases h6 : ks.Accounts <;>
              simp [hs, StackCall.isAddPeer, List.filter_append,
                addBootnodePeers_filter_isAddPeer]
      · cases h3 : env.RegisterStats with
        | some err => simp [hs, StackCall.isAddPeer]
        | none =>
          cases h4 : env.Start with
          | some err => simp [hs, StackCall.isAddPeer]
          | none =>
            cases h5 : env.Attach with
            | error err =>
              simp [hs, StackCall.isAddPeer, List.filter_append,
                addBootnodePeers_filter_isAddPeer]
            | ok client =>
              cases h6 : ks.Accounts <;>
                simp [hs, StackCall.isAddPeer, List.filter_append,
                  addBootnodePeers_filter_isAddPeer]

theorem newRinkebyEthBridge_ok (env : RinkebyEnv) (port : Int)
    (accountJSON accountPass : String) (ethLog : Int) (b : ethBridge) (t : List StackCall)
    (h : newRinkebyEthBridge env port accountJSON accountPass ethLog = (.ok b, t)) :
    b.keystore.Accounts.head? = some b.account := by
  unfold newRinkebyEthBridge at h
  cases hp : parseBootnodes env.ParseNode (splitJoined env.RinkebyBootnodes) with
  | error err => simp [hp] at h
  | ok enodes =>
    cases hc : pickAccount env env.NewKeyStore accountJSON accountPass with
    | error err => simp [hp, hc] at h
    | ok chosen =>
      obtain ⟨acc, ks⟩ := chosen
      cases hu : env.Unlock ks acc accountPass with
      | error err => simp [hp, hc, hu] at h
      | ok ks2 =>
        simp only [hp, hc, hu] at h
        have hb := newEthBridge_ok _ _ _ _ _ _ _ b t h
        rw [hb.2]
        exact hb.1

/-- C20: a bridge built by `newEthBridge` has the first account listed by the key
store it was given, and so has every bridge built by `newRinkebyEthBridge`, whatever
account was imported and unlocked before; with `demoRinkebyEnv`, whose key store
holds two accounts before the import, the bridge account is not the account that
was imported and unlocked; and when the node was assembled, started and attached,
`newEthBridge` on a key store without accounts panics on the index. -/
theorem bridge_account_is_first_keystore_account :
    (∀ env genesis port enodes network stats ks b t,
      newEthBridge env genesis port enodes network stats ks = (.ok b, t) →
      ks.Accounts.head? = some b.account ∧ b.keystore = ks) ∧
    (∀ env port accountJSON accountPass ethLog b t,
      newRinkebyEthBridge env port accountJSON accountPass ethLog = (.ok b, t) →
      b.keystore.Accounts.head? = some b.account) ∧
    (∃ b t ks,
      demoRinkebyEnv.Import demoRinkebyEnv.NewKeyStore "key file" "secret" "secret" =
        .ok (importedAccount, ks) ∧
      demoRinkebyEnv.Unlock ks importedAccount "secret" = .ok ks ∧
      newRinkebyEthBridge demoRinkebyEnv 3003 "key.json" "secret" 3 = (.ok b, t) ∧
      b.keystore.Accounts.length = 3 ∧
      b.account = { Address := 1, URL := "keystore://first" } ∧
      b.account ≠ importedAccount) ∧
    (∀ env genesis port enodes network stats ks client,
      env.New = none → env.RegisterLes = none → (stats = "" ∨ env.RegisterStats = none) →
      env.Start = none → env.Attach = .ok client → ks.Accounts = [] →
      (newEthBridge env genesis port enodes network stats ks).1 =
        .panic "runtime error: index out of range") := by
  refine ⟨newEthBridge_ok, newRinkebyEthBridge_ok, ?_, ?_⟩
  · exact ⟨_, _, _, rfl, rfl, rfl, rfl, rfl, by decide⟩
  · intro env genesis port enodes network stats ks client h1 h2 h3 h4 h5 h6
    unfold newEthBridge
    rcases h3 with hs | h3
    · simp [h1, h2, hs, h4, h5, h6]
    · by_cases hs : stats = ""
      · simp [h1, h2, hs, h4, h5, h6]
      · simp [h1, h2, hs, h3, h4, h5, h6]

/-- Witness for C20: `newEthBridge` on `demoKeyStore` yields the bridge of account 1,
`newRinkebyEthBridge` with `demoRinkebyEnv` yields a bridge whose account heads its
key store, and `newEthBridge` on `emptyKeyStore` panics. -/
theorem bridge_account_is_first_keystore_account_witness :
    demoKeyStore.Accounts.head? = some { Address := 1, URL := "keystore://first" } ∧
    (∀ b t, newRinkebyEthBridge demoRinkebyEnv 3003 "key.json" "secret" 3 = (.ok b, t) →
      b.keystore.Accounts.head? = some b.account) ∧
    (newEthBridge okNode demoGenesis 3003 demoBootnodes 4 "" emptyKeyStore).1 =
      .panic "runtime error: index out of range" :=
  ⟨(bridge_account_is_first_keystore_account.1 okNode demoGenesis 3003 demoBootnodes 4 ""
      demoKeyStore _ _ rfl).1,
   fun b t h => bridge_account_is_first_keystore_account.2.1 demoRinkebyEnv 3003 "key.json"
      "secret" 3 b t h,
   bridge_account_is_first_keystore_account.2.2.2 okNode demoGenesis 3003 demoBootnodes 4 ""
      emptyKeyStore okClient rfl rfl (Or.inl rfl) rfl rfl rfl⟩

/-! ## The chain identifier used for signing -/

theorem GetSignerFunc_trace_SignTx (op : ethBridge) (signer : Signer) (address : Address)
    (tx : Transaction) (account : Account) (signed : Transaction) (chainID : Int)
    (h : Call.SignTx account signed chainID ∈ (op.GetSignerFunc signer address tx).2) :
    account = op.account ∧ chainID = 4 := by
  unfold ethBridge.GetSignerFunc at h
  split at h
  · simp at h
  · simp only [List.mem_singleton, Call.SignTx.injEq] at h
    exact ⟨h.1, by rw [h.2.2]; rfl⟩

theorem run_trace_SignTx (op : ethBridge) (b : BoundCall) (account : Account)
    (signed : Transaction) (chainID : Int)
    (h : Call.SignTx account signed chainID ∈ (BoundCall.run op.client op.transactOpts b).2) :
    account = op.account ∧ chainID = 4 := by
  induction b with
  | done tx err => simp [BoundCall.run] at h
  | sign signer address tx next ih =>
    simp only [BoundCall.run, List.mem_cons, List.mem_append] at h
    rcases h with h | h | h
    · cases h
    · exact GetSignerFunc_trace_SignTx op signer address tx account signed chainID h
    · exact ih _ h
  | send tx next ih =>
    simp only [BoundCall.run, List.mem_cons] at h
    rcases h with h | h
    · cases h
    · exact ih _ h

theorem newEthBridge_ok_config (env : NodeEnv) (genesis : Genesis) (port : Int)
    (enodes : List DiscNode) (network : Int) (stats : String) (ks : KeyStore)
    (b : ethBridge) (t : List StackCall)
    (h : newEthBridge env genesis port enodes network stats ks = (.ok b, t)) :
    b.config = genesis.Config := by
  unfold newEthBridge at h
  cases h1 : env.New with
  | some err => simp [h1] at h
  | none =>
    cases h2 : env.RegisterLes with
    | some err => simp [h1, h2] at h
    | none =>
      simp only [h1, h2] at h
      split at h
      · simp at h
      · split at h
        · simp at h
        · split at h
          · simp at h
          · split at h
            · simp at h
            · simp only [Prod.mk.injEq, Outcome.ok.injEq] at h
              rw [← h.1]

/-- C21: for every network identifier and genesis given to `newEthBridge`, the bridge
it builds signs with chain identifier 4: its signer closure answers a request for the
bridge account with the key store's `SignTx` for chain 4 and records that call, and
every `SignTx` call made by the closure, by `TransferFunds` or by `Mint` carries
chain identifier 4, while the bridge's chain configuration is the one of the given
genesis. -/
theorem signer_chain_id_is_rinkeby (env : NodeEnv) (genesis : Genesis) (port : Int)
    (enodes : List DiscNode) (network : Int) (stats : String) (ks : KeyStore)
    (b : ethBridge) (t : List StackCall)
    (h : newEthBridge env genesis port enodes network stats ks = (.ok b, t)) :
    b.config = genesis.Config ∧
    (∀ signer tx,
      b.GetSignerFunc signer b.account.Address tx =
        (ks.SignTx b.account tx 4, [Call.SignTx b.account tx 4])) ∧
    (∀ signer address tx account signed chainID,
      Call.SignTx account signed chainID ∈ (b.GetSignerFunc signer address tx).2 →
      chainID = 4) ∧
    (∀ NewT contractAddress recipient amount account signed chainID,
      Call.SignTx account signed chainID ∈
        (b.TransferFunds NewT contractAddress recipient amount).2 →
      chainID = 4) ∧
    (∀ NewT contractAddress receiver amount txID account signed chainID,
      Call.SignTx account signed chainID ∈
        (b.Mint NewT contractAddress receiver amount txID).2 →
      chainID = 4) := by
  have hks := (newEthBridge_ok env genesis port enodes network stats ks b t h).2
  refine ⟨newEthBridge_ok_config env genesis port enodes network stats ks b t h, ?_, ?_, ?_, ?_⟩
  · intro signer tx
    rw [← hks]
    simp [ethBridge.GetSignerFunc, RinkebyNetworkID]
  · intro signer address tx account signed chainID hmem
    exact (GetSignerFunc_trace_SignTx b signer address tx account signed chainID hmem).2
  · intro NewT contractAddress recipient amount account signed chainID hmem
    cases amount with
    | none => simp [ethBridge.TransferFunds] at hmem
    | some a =>
      rw [TransferFunds_some] at hmem
      cases hb : NewT contractAddress b.client with
      | error err => simp [hb] at hmem
      | ok tr =>
        simp only [hb, List.mem_cons] at hmem
        rcases hmem with hm | hm | hm
        · cases hm
        · cases hm
        · exact (run_trace_SignTx b _ account signed chainID hm).2
  · intro NewT contractAddress receiver amount txID account signed chainID hmem
    cases amount with
    | none => simp [ethBridge.Mint] at hmem
    | some a =>
      rw [Mint_some] at hmem
      cases hb : NewT contractAddress b.client with
      | error err => simp [hb] at hmem
      | ok tr =>
        simp only [hb, List.mem_cons] at hmem
        rcases hmem with hm | hm | hm
        · cases hm
        · cases hm
        · exact (run_trace_SignTx b _ account signed chainID hm).2

/-- Witness for C21: `newEthBridge` called for network 1 with `mainnetGenesis` builds
`mainnetBridge`, whose configuration has chain identifier 1; its signer closure and
its `Mint` still hand chain identifier 4 to the key store. -/
theorem signer_chain_id_is_rinkeby_witness :
    (newEthBridge okNode mainnetGenesis 3003 demoBootnodes 1 "" demoKeyStore).1 =
      .ok mainnetBridge ∧
    mainnetBridge.config.ChainID = some 1 ∧
    mainnetBridge.GetSignerFunc .HomesteadSigner 1 { raw := [7] } =
      ((some { raw := [4, 7] }, none),
        [Call.SignTx { Address := 1, URL := "keystore://first" } { raw := [7] } 4]) ∧
    Call.SignTx { Address := 1, URL := "keystore://first" } { raw := [2, 5, 3] } 4 ∈
      (mainnetBridge.Mint demoBinding 77 2 (some 5) "tx1").2 :=
  ⟨rfl, rfl,
   (signer_chain_id_is_rinkeby okNode mainnetGenesis 3003 demoBootnodes 1 "" demoKeyStore
      mainnetBridge _ rfl).2.1 .HomesteadSigner { raw := [7] },
   by decide⟩

end Bridge

/-! ## HTTP handlers of the transaction database -/

namespace Api

/-- C15: `threeBotErrorAsHTTPStatusCode` answers 404 for `ErrBotNotFound`,
`ErrBotNameNotFound` and `ErrBotKeyNotFound`, 402 for `ErrBotNameExpired` (a value
distinct from the three first ones, which the `switch` tries before it), and 500 for
every other error value and for the nil error. -/
theorem threeBotError_status_codes (tftypes : BotErrors) (err : Option GoError) :
    (err = some tftypes.ErrBotNotFound ∨ err = some tftypes.ErrBotNameNotFound ∨
        err = some tftypes.ErrBotKeyNotFound →
      threeBotErrorAsHTTPStatusCode tftypes err = 404) ∧
    (err = some tftypes.ErrBotNameExpired →
      tftypes.ErrBotNameExpired ≠ tftypes.ErrBotNotFound →
      tftypes.ErrBotNameExpired ≠ tftypes.ErrBotNameNotFound →
      tftypes.ErrBotNameExpired ≠ tftypes.ErrBotKeyNotFound →
      threeBotErrorAsHTTPStatusCode tftypes err = 402) ∧
    (err ≠ some tftypes.ErrBotNotFound → err ≠ some tftypes.ErrBotNameNotFound →
      err ≠ some tftypes.ErrBotKeyNotFound → err ≠ some tftypes.ErrBotNameExpired →
      threeBotErrorAsHTTPStatusCode tftypes err = 500) ∧
    threeBotErrorAsHTTPStatusCode tftypes none = 500 := by
  refine ⟨?_, ?_, ?_, ?_⟩
  · intro h
    simp [threeBotErrorAsHTTPStatusCode, h, StatusNotFound]
  · intro h h1 h2 h3
    subst h
    simp [threeBotErrorAsHTTPStatusCode, h1, h2, h3, StatusPaymentRequired]
  · intro h1 h2 h3 h4
    simp [threeBotErrorAsHTTPStatusCode, h1, h2, h3, h4, StatusInternalServerError]
  · simp [threeBotErrorAsHTTPStatusCode, StatusInternalServerError]

/-- Witness for C15 on `demoBotErrors`: the four 3bot errors and an unrelated error. -/
theorem threeBotError_status_codes_witness :
    threeBotErrorAsHTTPStatusCode demoBotErrors (some demoBotErrors.ErrBotKeyNotFound) = 404 ∧
    threeBotErrorAsHTTPStatusCode demoBotErrors (some demoBotErrors.ErrBotNameExpired) = 402 ∧
    threeBotErrorAsHTTPStatusCode demoBotErrors
      (some { ref := 9, message := "3bot not found" }) = 500 :=
  ⟨(threeBotError_status_codes demoBotErrors (some demoBotErrors.ErrBotKeyNotFound)).1
      (Or.inr (Or.inr rfl)),
   (threeBotError_status_codes demoBotErrors (some demoBotErrors.ErrBotNameExpired)).2.1
      rfl (by decide) (by decide) (by decide),
   (threeBotError_status_codes demoBotErrors
      (some { ref := 9, message := "3bot not found" })).2.2.1
      (by decide) (by decide) (by decide) (by decide)⟩

/-- C19: the ERC20-related-address handler chooses by the length of the parameter
alone. A parameter of exactly `2 * ERC20AddressLength` bytes is loaded as an ERC20
address and its TFT address is looked up; any other parameter is loaded as a TFT
address and its ERC20 address is looked up. A load failure answers 400, a lookup
error 500, a lookup that finds nothing 204, and otherwise the JSON answer holds the
requested address and its counterpart. -/
theorem erc20_related_address_handler (env : AddressEnv) (addressStr : String) :
    (addressStr.utf8ByteSize = env.ERC20AddressLength * 2 →
      (∀ err, env.LoadERC20Address addressStr = .error err →
        NewTransactionDBGetERC20RelatedAddressHandler env addressStr =
          .WriteError ("invalid ERC20 address given: " ++ err.message) 400) ∧
      (∀ erc20, env.LoadERC20Address addressStr = .ok erc20 →
        (∀ tft found err, env.GetTFTAddressForERC20Address erc20 = (tft, found, some err) →
          NewTransactionDBGetERC20RelatedAddressHandler env addressStr =
            .WriteError ("error while fetching TFT Address: " ++ err.message) 500) ∧
        (∀ tft, env.GetTFTAddressForERC20Address erc20 = (tft, false, none) →
          NewTransactionDBGetERC20RelatedAddressHandler env addressStr =
            .WriteError "error while fetching TFT Address: address not found" 204) ∧
        (∀ tft, env.GetTFTAddressForERC20Address erc20 = (tft, true, none) →
          NewTransactionDBGetERC20RelatedAddressHandler env addressStr =
            .WriteJSON { TFTAddress := tft, ERC20Address := erc20 }))) ∧
    (addressStr.utf8ByteSize ≠ env.ERC20AddressLength * 2 →
      (∀ err, env.LoadUnlockHash addressStr = .error err →
        NewTransactionDBGetERC20RelatedAddressHandler env addressStr =
          .WriteError ("invalid (TFT) address given: " ++ err.message) 400) ∧
      (∀ tft, env.LoadUnlockHash addressStr = .ok tft →
        (∀ erc20 found err, env.GetERC20AddressForTFTAddress tft = (erc20, found, some err) →
          NewTransactionDBGetERC20RelatedAddressHandler env addressStr =
            .WriteError ("error while fetching ERC20 Address: " ++ err.message) 500) ∧
        (∀ erc20, env.GetERC20AddressForTFTAddress tft = (erc20, false, none) →
          NewTransactionDBGetERC20RelatedAddressHandler env addressStr =
            .WriteError "error while fetching ERC20 Address: address not found" 204) ∧
        (∀ erc20, env.GetERC20AddressForTFTAddress tft = (erc20, true, none) →
          NewTransactionDBGetERC20RelatedAddressHandler env addressStr =
            .WriteJSON { TFTAddress := tft, ERC20Address := erc20 }))) := by
  constructor
  · intro hlen
    refine ⟨?_, ?_⟩
    · intro err hload
      simp [NewTransactionDBGetERC20RelatedAddressHandler, hlen, hload, StatusBadRequest]
    · intro erc20 hload
      refine ⟨?_, ?_, ?_⟩
      · intro tft found err hget
        simp [NewTransactionDBGetERC20RelatedAddressHandler, hlen, hload, hget,
          StatusInternalServerError]
      · intro tft hget
        simp [NewTransactionDBGetERC20RelatedAddressHandler, hlen, hload, hget,
          StatusNoContent]
      · intro tft hget
        simp [NewTransactionDBGetERC20RelatedAddressHandler, hlen, hload, hget]
  · intro hlen
    refine ⟨?_, ?_⟩
    · intro err hload
      simp [NewTransactionDBGetERC20RelatedAddressHandler, hlen, hload, StatusBadRequest]
    · intro tft hload
      refine ⟨?_, ?_, ?_⟩
      · intro erc20 found err hget
        simp [NewTransactionDBGetERC20RelatedAddressHandler, hlen, hload, hget,
          StatusInternalServerError]
      · intro erc20 hget
        simp [NewTransactionDBGetERC20RelatedAddressHandler, hlen, hload, hget,
          StatusNoContent]
      · intro erc20 hget
        simp [NewTransactionDBGetERC20RelatedAddressHandler, hlen, hload, hget]

/-- Witness for C19 on `demoAddressEnv`: a 40 byte parameter is answered with both
addresses, a 40 byte parameter that is no ERC20 address with 400, and the 8 byte
parameter "01broken", whose lookup fails, with 500. -/
theorem erc20_related_address_handler_witness :
    NewTransactionDBGetERC20RelatedAddressHandler demoAddressEnv
        "828de486adc50aa52dab52a2ec284bcac75be211" =
      .WriteJSON
        { TFTAddress :=
            { text := "01f68299b26a89efdb4351a61c3a062321d23edbc1399c8499947c1313375609ad" },
          ERC20Address := { hex := "828de486adc50aa52dab52a2ec284bcac75be211" } } ∧
    NewTransactionDBGetERC20RelatedAddressHandler demoAddressEnv
        "828de486adc50aa52dab52a2ec284bcac75be2!!" =
      .WriteError "invalid ERC20 address given: invalid hexadecimal digit" 400 ∧
    NewTransactionDBGetERC20RelatedAddressHandler demoAddressEnv "01broken" =
      .WriteError "error while fetching ERC20 Address: database is closed" 500 :=
  ⟨(((erc20_related_address_handler demoAddressEnv
        "828de486adc50aa52dab52a2ec284bcac75be211").1 (by decide)).2
      { hex := "828de486adc50aa52dab52a2ec284bcac75be211" } rfl).2.2
      { text := "01f68299b26a89efdb4351a61c3a062321d23edbc1399c8499947c1313375609ad" } rfl,
   ((erc20_related_address_handler demoAddressEnv
        "828de486adc50aa52dab52a2ec284bcac75be2!!").1 (by decide)).1
      { ref := 10, message := "invalid hexadecimal digit" } rfl,
   (((erc20_related_address_handler demoAddressEnv "01broken").2 (by decide)).2
      { text := "01broken" } rfl).1
      { hex := "" } false { ref := 12, message := "database is closed" } rfl⟩

end Api

/-! ## Network setup of the daemon -/

namespace Tfchaind

/-- C16: `SetupNetworksAndTypes` returns an error exactly when the name is none of
"standard", "testnet" and "devnet", and then returns the empty configuration and
registers nothing; for "standard" it registers the multisig condition with limit
42000 and returns the standard genesis and bootstrap peers; for "testnet" it
registers limit 0 and returns the testnet genesis and peers; for "devnet" it
registers limit 0 and returns the devnet genesis with a nil list of peers. -/
theorem setup_networks_and_types (config : Config) (name : String) :
    ((SetupNetworksAndTypes config name).1.2 ≠ none ↔
      (name ≠ "standard" ∧ name ≠ "testnet" ∧ name ≠ "devnet")) ∧
    (name ≠ "standard" → name ≠ "testnet" → name ≠ "devnet" →
      SetupNetworksAndTypes config name =
        ((NetworkConfig.zero, some (notRecognized name)), [])) ∧
    SetupNetworksAndTypes config "standard" =
      (({ Constants := config.GetStandardnetGenesis,
          BootstrapPeers := config.GetStandardnetBootstrapPeers }, none),
        [{ blockHeight := 42000 }]) ∧
    SetupNetworksAndTypes config "testnet" =
      (({ Constants := config.GetTestnetGenesis,
          BootstrapPeers := config.GetTestnetBootstrapPeers }, none),
        [{ blockHeight := 0 }]) ∧
    SetupNetworksAndTypes config "devnet" =
      (({ Constants := config.GetDevnetGenesis, BootstrapPeers := none }, none),
        [{ blockHeight := 0 }]) := by
  refine ⟨?_, ?_, ?_, ?_, ?_⟩
  · unfold SetupNetworksAndTypes standardnet testnet devnet
    by_cases h1 : name = "standard"
    · simp [h1]
    · by_cases h2 : name = "testnet"
      · simp [h2]
      · by_cases h3 : name = "devnet"
        · simp [h3]
        · simp [h1, h2, h3]
  · intro h1 h2 h3
    simp [SetupNetworksAndTypes, standardnet, testnet, devnet, h1, h2, h3]
  · simp [SetupNetworksAndTypes, standardnet]
  · simp [SetupNetworksAndTypes, standardnet, testnet]
  · simp [SetupNetworksAndTypes, standardnet, testnet, devnet]

/-- Witness for C16 on `demoConfig`: the name "main" is refused with the empty
configuration and without registration. -/
theorem setup_networks_and_types_witness :
    ("main" : String) ≠ "standard" ∧ ("main" : String) ≠ "testnet" ∧
    ("main" : String) ≠ "devnet" ∧
    SetupNetworksAndTypes demoConfig "main" =
      ((NetworkConfig.zero, some (notRecognized "main")), []) ∧
    (SetupNetworksAndTypes demoConfig "main").1.2 ≠ none :=
  ⟨by decide, by decide, by decide,
   (setup_networks_and_types demoConfig "main").2.1 (by decide) (by decide) (by decide),
   (setup_networks_and_types demoConfig "main").1.2 ⟨by decide, by decide, by decide⟩⟩

end Tfchaind

/-! ## Command wrapper of the client -/

namespace RivineClient

/-- C17 (counterexample): for `func(a Amount)` with `type Amount string`, every
parameter is of string kind, so `Wrap` does not panic; the returned command run
with one argument does not enter the function: `reflect` panics because a `string`
is not assignable to `Amount`. -/
theorem wrap_defined_string_param_not_called :
    definedStringParam.Kind = .Func ∧
    (∀ t ∈ definedStringParam.In, t.Kind = .String) ∧
    ∃ cmd, Wrap (some definedStringParam) = .ok cmd ∧
      ["5"].length = definedStringParam.In.length ∧
      cmd ["5"] = [.Panic "reflect: Call using string as type main.Amount"] :=
  ⟨rfl, by decide, _, rfl, rfl, rfl⟩

/-- C17 (amended): `Wrap(fn)` panics exactly when `fn` is not a function (the nil
interface included) or some parameter of `fn` is not of string kind. Otherwise the
returned command, for every `args`: when the number of arguments differs from the
number of parameters, prints the usage and exits with code 64 without entering
`fn`; when the numbers agree, `fn` is not a nil function and every parameter type
accepts a `string` value, enters `fn` once with `args` as its parameters in order. -/
theorem wrap_checks_signature_and_arity (fn : Option GoValue) :
    ((∃ msg, Wrap fn = .error msg) ↔
      (fn = none ∨ ∃ v, fn = some v ∧ (v.Kind ≠ .Func ∨ ∃ t ∈ v.In, t.Kind ≠ .String))) ∧
    (∀ v cmd, fn = some v → Wrap fn = .ok cmd →
      (∀ args : List String, args.length ≠ v.In.length →
        cmd args = [.Usage, .Exit 64]) ∧
      (∀ args : List String, args.length = v.In.length → v.IsNil = false →
        (∀ t ∈ v.In, t.AcceptsString = true) → cmd args = [.CallFn args])) := by
  constructor
  · cases fn with
    | none => simp [Wrap]
    | some v =>
      by_cases hk : v.Kind = .Func
      · by_cases hin : ∃ t ∈ v.In, t.Kind ≠ .String
        · have hany : (v.In.any fun t => decide (t.Kind ≠ .String)) = true := by
            simpa using hin
          simp [Wrap, hk, hany, hin]
        · have hany : (v.In.any fun t => decide (t.Kind ≠ .String)) = false := by
            simpa using hin
          simp [Wrap, hk, hany, hin]
      · simp [Wrap, hk]
  · intro v cmd hfn hwrap
    subst hfn
    unfold Wrap at hwrap
    by_cases hk : v.Kind = .Func
    · simp only [hk, ne_eq, not_true_eq_false, if_false] at hwrap
      split at hwrap
      · simp at hwrap
      · simp only [Except.ok.injEq] at hwrap
        subst hwrap
        refine ⟨?_, ?_⟩
        · intro args hlen
          simp [hlen, exitCodeUsage]
        · intro args hlen hnil hacc
          have hfind : (v.In.find? fun t => !t.AcceptsString) = none := by
            simpa using hacc
          simp [hlen, reflectCall, hnil, hfind]
    · simp [hk] at hwrap

/-- Witness for C17 (amended) on `func(a, b string)`: `Wrap` returns a command that
prints the usage and exits with 64 for one argument and enters the function for
two. -/
theorem wrap_checks_signature_and_arity_witness :
    ∃ cmd, Wrap (some twoStrings) = .ok cmd ∧
      cmd ["a"] = [.Usage, .Exit 64] ∧ cmd ["a", "b"] = [.CallFn ["a", "b"]] :=
  ⟨_, rfl,
   ((wrap_checks_signature_and_arity (some twoStrings)).2 twoStrings _ rfl rfl).1 ["a"]
     (by decide),
   ((wrap_checks_signature_and_arity (some twoStrings)).2 twoStrings _ rfl rfl).2 ["a", "b"]
     rfl rfl (by decide)⟩

end RivineClient
